import Mathlib

/-!
Shallow embedding of the test-execution orchestration and coverage
aggregation engine of `src/server.py` (a Salesforce MCP server).

External collaborators (the Salesforce record-query API, the Tooling HTTP
API, the queue-item create API) are modelled as environment records that
hold the response each call site would receive; `none` / `.error`
components model a call that raises.  Every embedded function returns,
next to its result, the list of external calls it actually performed, so
that theorems can speak about which sources were queried and how many
queue items were created.
-/

namespace SfServer

/-- Prefix test on character lists by structural recursion (kernel-friendly
replacement for the iterator-based library routine). -/
def charsPrefix : List Char → List Char → Bool
  | [], _ => true
  | _ :: _, [] => false
  | a :: as, b :: bs => a == b && charsPrefix as bs

/-- Python `s.endswith(t)`: `t` is a suffix of `s`. -/
def strEndsWith (s t : String) : Bool :=
  charsPrefix t.data.reverse s.data.reverse

/-- Test-unit naming convention used throughout `get_comprehensive_coverage_data`
(`src/server.py` lines 333, 398, 436, 481):
`class_name.endswith('Test') or class_name.endswith('_Test')`. -/
def isTestClassName (s : String) : Bool :=
  strEndsWith s "Test" || strEndsWith s "_Test"

/-- One detailed `ApexCodeCoverage` row as consumed by Method 1 (job-scoped,
per test method) and Method 3 (recency window) of
`get_comprehensive_coverage_data`.  Fields the Python code reads with
`.get(..., default)` are `Option`s here, with the default applied at the
use site exactly as in the source. -/
structure CovRow where
  apexName : Option String
  testClassName : Option String
  testMethodName : Option String
  numLinesCovered : Nat
  numLinesUncovered : Nat
deriving Repr, DecidableEq

/-- One contributing test-method record, `{"method": ..., "covered": ...,
"uncovered": ...}` (`src/server.py` lines 356-362). -/
structure TestMethodEntry where
  method : String
  covered : Nat
  uncovered : Nat
deriving Repr, DecidableEq

/-- One aggregated coverage entry, the value stored in `class_coverage_map`
(`src/server.py` lines 339-344) and also the shape of the raw
`ApexCodeCoverageAggregate` records passed through by Methods 2 and 4.
`testMethods = none` models a dict without the `"TestMethods"` key. -/
structure AggEntry where
  name : String
  covered : Nat
  uncovered : Nat
  testMethods : Option (List TestMethodEntry)
deriving Repr, DecidableEq

/-- Dict lookup `class_coverage_map[class_name]` on the insertion-ordered
association list that models the Python dict. -/
def findEntry (m : List AggEntry) (n : String) : Option AggEntry :=
  m.find? (fun e => e.name == n)

/-- Dict membership test `class_name in class_coverage_map`. -/
def hasEntry (m : List AggEntry) (n : String) : Bool :=
  m.any (fun e => e.name == n)

/-- In-place update of the (unique) entry keyed `n`; other entries and the
insertion order are untouched, as for a Python dict value update. -/
def updateEntry (m : List AggEntry) (n : String) (f : AggEntry → AggEntry) :
    List AggEntry :=
  m.map (fun e => if e.name == n then f e else e)

/-- `record.get("ApexClassOrTrigger", {}).get("Name", "Unknown")`
(`src/server.py` line 327). -/
def rowClassName (r : CovRow) : String := r.apexName.getD "Unknown"

/-- `record.get("TestClassName", "Unknown")` (`src/server.py` line 328). -/
def rowTestClassName (r : CovRow) : String := r.testClassName.getD "Unknown"

/-- `record.get("TestMethodName", "Unknown")` (`src/server.py` line 355). -/
def rowMethodName (r : CovRow) : String := r.testMethodName.getD "Unknown"

/-- The elementwise-`max` entry update applied for a duplicate observation
(`src/server.py` lines 346-352 and 447-453): take the maximum coverage
seen so far, never decreasing either count. -/
def maxMerge (r : CovRow) (e : AggEntry) : AggEntry :=
  { e with covered := Nat.max e.covered r.numLinesCovered,
           uncovered := Nat.max e.uncovered r.numLinesUncovered }

/-- The contributing-test-method record appended for a row,
`f"{test_class_name}.{method_name}"` with its counts (`src/server.py`
lines 354-362). -/
def mEntry (r : CovRow) : TestMethodEntry :=
  ⟨rowTestClassName r ++ "." ++ rowMethodName r, r.numLinesCovered, r.numLinesUncovered⟩

/-- The `"TestMethods"` append performed for every non-skipped row
(`src/server.py` lines 356-362). -/
def pushMethod (r : CovRow) (e : AggEntry) : AggEntry :=
  { e with testMethods := some ((e.testMethods.getD []) ++ [mEntry r]) }

/-- Loop body of the Method-1 aggregation (`src/server.py` lines 326-362):
skip rows whose measured unit is itself a test class; insert a fresh entry
or merge by elementwise `max`; then append the contributing test method
in either case. -/
def mergeJobRow (m : List AggEntry) (r : CovRow) : List AggEntry :=
  let n := rowClassName r
  if isTestClassName n then m
  else
    let m1 :=
      if hasEntry m n then updateEntry m n (maxMerge r)
      else
        m ++ [{ name := n, covered := r.numLinesCovered,
                uncovered := r.numLinesUncovered, testMethods := some [] }]
    updateEntry m1 n (pushMethod r)

/-- Method-1 aggregation: `class_coverage_map` built over all detailed rows,
then `list(class_coverage_map.values())` (`src/server.py` lines 325-364). -/
def aggregateJobCoverage (rows : List CovRow) : List AggEntry :=
  rows.foldl mergeJobRow []

/-- Loop body of the Method-3 aggregation (`src/server.py` lines 433-453):
`class_name = record.get("ApexClassOrTrigger", {}).get("Name")`; the guard
`if class_name and not (class_name.endswith('Test') or ...)` skips missing
names, empty names and test classes; entries carry no `"TestMethods"` key. -/
def mergeRecentRow (m : List AggEntry) (r : CovRow) : List AggEntry :=
  match r.apexName with
  | none => m
  | some n =>
    if n == "" then m
    else if isTestClassName n then m
    else if hasEntry m n then updateEntry m n (maxMerge r)
    else
      m ++ [{ name := n, covered := r.numLinesCovered,
              uncovered := r.numLinesUncovered, testMethods := none }]

/-- Method-3 aggregation: `class_coverage` built over the recency-window
rows, then `list(class_coverage.values())` (`src/server.py` lines 432-455). -/
def aggregateRecentCoverage (rows : List CovRow) : List AggEntry :=
  rows.foldl mergeRecentRow []

/-- One raw `ApexCodeCoverageAggregate` row as consumed by Methods 2 and 4;
those methods read the name with `.get("Name", "")` for filtering. -/
structure AggRow where
  apexName : Option String
  numLinesCovered : Nat
  numLinesUncovered : Nat
deriving Repr, DecidableEq

/-- Filter applied by Methods 2 and 4 (`src/server.py` lines 395-399 and
477-482): keep rows whose defaulted name does not match the test-class
convention. -/
def filterAggRows (rows : List AggRow) : List AggRow :=
  rows.filter (fun r => !isTestClassName (r.apexName.getD ""))

/-- Methods 2 and 4 pass their filtered raw records through unchanged; this
converts such a record to the common entry shape (the raw dict has no
`"TestMethods"` key).  The name is read with the same `""` default the
filter used. -/
def aggRowToEntry (r : AggRow) : AggEntry :=
  ⟨r.apexName.getD "", r.numLinesCovered, r.numLinesUncovered, none⟩

/-- The four fallback data sources of `get_comprehensive_coverage_data`,
in chain order. -/
inductive CovSource
  | detailedJob
  | aggregateJob
  | recent
  | orgWide
deriving Repr, DecidableEq

/-- Responses of the external system to the four coverage queries.
`none` models a query that failed (the Tooling API helper returning `None`,
or `query_all` raising); `some []` models an empty record set. -/
structure CoverageEnv where
  detailedJobRows : Option (List CovRow)
  aggregateJobRows : Option (List AggRow)
  recentRows : Option (List CovRow)
  orgWideRows : Option (List AggRow)

/-- Python truthiness of the `job_id` argument (`if class_names and job_id`,
`src/server.py` line 307): `None` and `""` are falsy. -/
def strTruthy : Option String → Bool
  | some s => s != ""
  | none => false

/-- Python truthiness of an optional list argument: `None` and `[]` are
falsy. -/
def listTruthy : Option (List String) → Bool
  | some (_ :: _) => true
  | _ => false

/-- Method 1 of `get_comprehensive_coverage_data` (`src/server.py` lines
307-378): per-method coverage scoped to the job, attempted only when both
`class_names` and `job_id` are truthy; yields a result only when the query
succeeded, returned records, and the aggregation (after test-class
filtering) is non-empty.  The second component records whether the source
was queried. -/
def method1Result (jobId : Option String) (classNames : Option (List String))
    (env : CoverageEnv) : Option (List AggEntry) × List CovSource :=
  if listTruthy classNames && strTruthy jobId then
    (match env.detailedJobRows with
     | some rows =>
       if rows.isEmpty then none
       else
         let agg := aggregateJobCoverage rows
         if agg.isEmpty then none else some agg
     | none => none,
     [CovSource.detailedJob])
  else (none, [])

/-- Method 2 (`src/server.py` lines 380-411): job-scoped
`ApexCodeCoverageAggregate`, attempted only when `job_id` is truthy;
yields the filtered raw records when any survive the test-class filter. -/
def method2Result (jobId : Option String) (env : CoverageEnv) :
    Option (List AggEntry) × List CovSource :=
  if strTruthy jobId then
    (match env.aggregateJobRows with
     | some rows =>
       if rows.isEmpty then none
       else
         let filtered := filterAggRows rows
         if filtered.isEmpty then none else some (filtered.map aggRowToEntry)
     | none => none,
     [CovSource.aggregateJob])
  else (none, [])

/-- Method 3 (`src/server.py` lines 413-461): recency-windowed coverage,
always attempted when reached; yields the (test-class filtered) monotonic
aggregation when non-empty. -/
def method3Result (env : CoverageEnv) : Option (List AggEntry) × List CovSource :=
  (match env.recentRows with
   | some rows =>
     if rows.isEmpty then none
     else
       let agg := aggregateRecentCoverage rows
       if agg.isEmpty then none else some agg
   | none => none,
   [CovSource.recent])

/-- Method 4 (`src/server.py` lines 463-489): org-wide aggregate fallback,
always attempted when reached. -/
def method4Result (env : CoverageEnv) : Option (List AggEntry) × List CovSource :=
  (match env.orgWideRows with
   | some rows =>
     if rows.isEmpty then none
     else
       let filtered := filterAggRows rows
       if filtered.isEmpty then none else some (filtered.map aggRowToEntry)
   | none => none,
   [CovSource.orgWide])

/-- `get_comprehensive_coverage_data(job_id, class_names)`
(`src/server.py` lines 300-495): fallback chain over the four sources,
first non-empty (post-filter) result wins, `[]` when every source is empty
or failed.  The second component records which sources were actually
queried, in order. -/
def getComprehensiveCoverageData (jobId : Option String)
    (classNames : Option (List String)) (env : CoverageEnv) :
    List AggEntry × List CovSource :=
  match method1Result jobId classNames env with
  | (some out, log1) => (out, log1)
  | (none, log1) =>
    match method2Result jobId env with
    | (some out, log2) => (out, log1 ++ log2)
    | (none, log2) =>
      match method3Result env with
      | (some out, log3) => (out, log1 ++ log2 ++ log3)
      | (none, log3) =>
        match method4Result env with
        | (some out, log4) => (out, log1 ++ log2 ++ log3 ++ log4)
        | (none, log4) => ([], log1 ++ log2 ++ log3 ++ log4)

/-! ## Job poller (`monitor_test_execution`, `src/server.py` lines 1140-1184) -/

/-- Result of one status read: either the query raised, or it returned the
`Status` fields of the matching `AsyncApexJob` records (possibly none). -/
inductive PollRead
  | err
  | ok (statuses : List String)
deriving Repr, DecidableEq

/-- Terminal job statuses (`src/server.py` line 1161). -/
def terminalStatuses : List String := ["Completed", "Failed", "Aborted"]

/-- `max_polls = 60  # 5 minutes max` (`src/server.py` line 1146). -/
def maxPolls : Nat := 60

/-- `poll_interval = 5` seconds (`src/server.py` line 1147); real time is not
modelled, only the attempt budget. -/
def pollInterval : Nat := 5

/-- Outcome of the polling loop: a terminal status was observed and control
passes to `get_test_results_by_job_id` (the `results` marker carries the
observed status), or the loop ended without one (budget exhausted, or a
status read raised and the `except` branch executed `break`). -/
inductive MonitorResult
  | results (status : String)
  | timedOut
deriving Repr, DecidableEq

/-- The polling loop of `monitor_test_execution` (`src/server.py` lines
1149-1171), parameterized by the outcome of the k-th status read.  Returns
the loop result together with the number of status reads performed.  Note
the source's `except` branch around a failed read executes `break`, which
falls through to the timeout return. -/
def monitorLoop (reads : Nat → PollRead) : Nat → Nat → MonitorResult × Nat
  | 0, k => (MonitorResult.timedOut, k)
  | fuel + 1, k =>
    match reads k with
    | PollRead.err => (MonitorResult.timedOut, k + 1)
    | PollRead.ok statuses =>
      match statuses with
      | [] => monitorLoop reads fuel (k + 1)
      | s :: _ =>
        if terminalStatuses.contains s then (MonitorResult.results s, k + 1)
        else monitorLoop reads fuel (k + 1)

/-- A per-class queue item as returned by `enqueue_tests_individually`
(`src/server.py` lines 1102-1108). -/
structure EnqueuedItem where
  className : String
  classId : String
  queueId : Option String
deriving Repr, DecidableEq

/-- The outcome dict a tool call returns.  Keys absent from a given return
site are `none`. -/
structure ToolResult where
  success : Bool
  executionMethod : Option String := none
  jobId : Option String := none
  enqueuedClasses : Option Nat := none
  queueItems : Option (List EnqueuedItem) := none
  message : String
deriving Repr, DecidableEq

/-- The timeout return of `monitor_test_execution` (`src/server.py` lines
1173-1178): reported as `success: True` with the job id and an instruction
to check manually. -/
def asyncTimeoutReturn (jobId : String) : ToolResult :=
  { success := true,
    executionMethod := some "Async_Timeout",
    jobId := some jobId,
    message := "⏱️ Test execution is taking longer than expected.\n\n📋 **Job ID:** " ++
      jobId ++ "\n\n💡 **Check Status Manually:** Go to Setup → Apex Test Execution in Salesforce" }

/-- Full outcome of `monitor_test_execution`: either control passed to
result retrieval for a terminal status, or the non-fatal timeout dict. -/
inductive MonitorOutcome
  | resultsStage (jobId status : String)
  | timeout (r : ToolResult)
deriving Repr, DecidableEq

/-- `monitor_test_execution(job_id, ...)` (`src/server.py` lines 1140-1184),
returning its outcome and the number of status reads performed. -/
def monitorTestExecution (jobId : String) (reads : Nat → PollRead) :
    MonitorOutcome × Nat :=
  match monitorLoop reads maxPolls 0 with
  | (MonitorResult.results s, k) => (MonitorOutcome.resultsStage jobId s, k)
  | (MonitorResult.timedOut, k) => (MonitorOutcome.timeout (asyncTimeoutReturn jobId), k)

/-! ## Dedup check (`check_test_execution_status`, `src/server.py` lines 164-211) -/

/-- One `ApexTestQueueItem` row of the queue-status query response
(`src/server.py` lines 172-179); the query itself filters on
`ApexClass.Name IN class_names AND Status IN ('Queued', 'Processing')`. -/
structure QueueRec where
  className : String
  status : String
deriving Repr, DecidableEq

/-- One `AsyncApexJob` row of the recent-jobs query response
(`src/server.py` lines 193-201); that query filters only on `CreatedDate`
(last 10 minutes), `Status IN ('Queued', 'Processing', 'Preparing')` and
`JobType = 'TestRequest'` — it carries no class-name condition. -/
structure JobRec where
  id : String
  status : String
deriving Repr, DecidableEq

/-- External responses seen by `check_test_execution_status`.
`connOk = false` models `ensure_connection()` failing; a `none` response
models the corresponding query raising (caught by the function's own
`except`, which returns `None`). -/
structure CheckEnv where
  connOk : Bool
  queueResp : Option (List QueueRec)
  jobResp : Option (List JobRec)

/-- The dict returned by `check_test_execution_status`: `status` is
`"running"` or `"not_running"`; the `classes` and `queue_items` keys are
present only on the queue branch, the `jobs` key only on the recent-jobs
branch. -/
structure CheckResult where
  status : String
  classes : Option (List String)
  queueItems : Option (List QueueRec)
  jobs : Option (List JobRec)
deriving Repr, DecidableEq

/-- External calls performed by the submission flow. -/
inductive SfEffect
  | queueQuery (classNames : List String)
  | jobQuery
  | apexClassQuery (classNames : List String)
  | createQueueItem (classId : String)
deriving Repr, DecidableEq

/-- `check_test_execution_status(class_names)` (`src/server.py` lines
164-211): `None` on connection failure or exception; otherwise `"running"`
with the queue items' class names, else `"running"` with the recent
non-terminal jobs, else `"not_running"`. -/
def checkTestExecutionStatus (env : CheckEnv) (classNames : List String) :
    Option CheckResult × List SfEffect :=
  if env.connOk then
    match env.queueResp with
    | none => (none, [SfEffect.queueQuery classNames])
    | some qs =>
      if qs.isEmpty then
        match env.jobResp with
        | none => (none, [SfEffect.queueQuery classNames, SfEffect.jobQuery])
        | some js =>
          if js.isEmpty then
            (some ⟨"not_running", none, none, none⟩,
             [SfEffect.queueQuery classNames, SfEffect.jobQuery])
          else
            (some ⟨"running", none, none, some js⟩,
             [SfEffect.queueQuery classNames, SfEffect.jobQuery])
      else
        (some ⟨"running", some (qs.map (fun q => q.className)), some qs, none⟩,
         [SfEffect.queueQuery classNames])
  else (none, [])

/-! ## Direct enqueue (`enqueue_tests_individually`, `src/server.py` lines 1076-1137) -/

/-- One `ApexClass` row `(Id, Name)` of a class-resolution query response. -/
structure ApexClassRec where
  id : String
  name : String
deriving Repr, DecidableEq

/-- Response to one `ApexTestQueueItem.create` call: the call raised
(caught per item, loop continues), or returned a dict whose `success` and
`id` the code reads. -/
inductive CreateResp
  | raise (msg : String)
  | resp (success : Bool) (id : Option String)

/-- External responses seen by `enqueue_tests_individually`: its own
`ApexClass` query (`.error` models the query raising) and the per-class-id
create responses. -/
structure EnqueueEnv where
  classResp : Except String (List ApexClassRec)
  createResp : String → CreateResp

/-- Python `f"{x}"` rendering of an optional string: `None` prints as
`"None"`. -/
def pyShowOpt (o : Option String) : String := o.getD "None"

/-- Success message of `enqueue_tests_individually` (`src/server.py` lines
1124-1131). -/
def enqueueSuccessMsg (items : List EnqueuedItem) : String :=
  "✅ Successfully enqueued " ++ toString items.length ++
  " test classes!\n\n📋 **Enqueued Tests:**\n" ++
  String.intercalate "\n" (items.map (fun it =>
    "• " ++ it.className ++ " (Queue ID: " ++ pyShowOpt it.queueId ++ ")")) ++
  "\n\n💡 **Monitor Progress:** Check Setup → Apex Test Execution or query ApexTestQueueItem\n\n⏳ **Note:** Tests are now running. Use \x27check coverage\x27 to see results once complete."

/-- Loop body of the per-class create loop (`src/server.py` lines
1095-1116): a create that raises is logged and skipped, a create whose
response has a falsy `success` is skipped, a successful create appends the
queue item. -/
def enqStep (env : EnqueueEnv) (acc : List EnqueuedItem) (rec' : ApexClassRec) :
    List EnqueuedItem :=
  match env.createResp rec'.id with
  | CreateResp.raise _ => acc
  | CreateResp.resp ok qid =>
    if ok then acc ++ [EnqueuedItem.mk rec'.name rec'.id qid] else acc

/-- `enqueue_tests_individually(class_names, code_coverage)`
(`src/server.py` lines 1076-1137): resolve the names, create one
`ApexTestQueueItem` per resolved class (a failed create is logged and
skipped), succeed if at least one item was created.  The `code_coverage`
parameter is accepted but unused, exactly as in the source. -/
def enqueueTestsIndividually (env : EnqueueEnv) (classNames : List String)
    (codeCoverage : Bool) : ToolResult × List SfEffect :=
  match env.classResp with
  | Except.error e =>
    ({ success := false, message := "❌ Individual enqueueing failed: " ++ e },
     [SfEffect.apexClassQuery classNames])
  | Except.ok recs =>
    if recs.isEmpty then
      ({ success := false,
         message := "❌ Test classes not found: " ++ String.intercalate ", " classNames },
       [SfEffect.apexClassQuery classNames])
    else
      let enqueued := recs.foldl (enqStep env) []
      let effs := SfEffect.apexClassQuery classNames ::
        recs.map (fun r => SfEffect.createQueueItem r.id)
      if enqueued.isEmpty then
        ({ success := false, message := "❌ Failed to enqueue any test classes" }, effs)
      else
        ({ success := true,
           executionMethod := some "ApexTestQueueItem",
           enqueuedClasses := some enqueued.length,
           queueItems := some enqueued,
           message := enqueueSuccessMsg enqueued }, effs)

/-! ## Submission flow (`run_apex_tests_comprehensive`, `src/server.py` lines 897-973) -/

/-- External responses seen by `run_apex_tests_comprehensive` itself:
the shared connection state, the dedup-check responses, its own
`ApexClass` existence query (`.error` models it raising, which the outer
`except` converts into an error outcome), and the enqueue responses. -/
structure SubmitEnv where
  connOk : Bool
  check : CheckEnv
  classResp : Except String (List ApexClassRec)
  enq : EnqueueEnv

/-- Result of the submission flow.  `outcome` is a returned dict;
`toolingStage` marks control passing to
`run_apex_tests_tooling_api_enhanced(class_names, test_level,
async_execution, code_coverage)` and, on its failure, to
`run_apex_tests_analysis_mode` (`src/server.py` lines 957-965) — that
continuation is outside the claims settled here and is represented by the
marker carrying its exact arguments. -/
inductive SubmitResult
  | outcome (r : ToolResult)
  | toolingStage (classNames : Option (List String)) (testLevel : String)
      (asyncExecution : Bool) (codeCoverage : Bool)
deriving Repr, DecidableEq

/-- Already-running message of `run_apex_tests_comprehensive`
(`src/server.py` lines 925-931). -/
def alreadyRunningMsg (classes : List String) : String :=
  "⏳ **Tests are already running!**\n\n🔄 **Currently Running Classes:**\n" ++
  String.intercalate "\n" (classes.map (fun cls => "• " ++ cls)) ++
  "\n\n💡 **Please wait for completion before running tests again.**\n" ++
  "Check Setup → Apex Test Execution for progress."

/-- Lines 933-965 of `run_apex_tests_comprehensive` for a truthy
`class_names`: verify the classes exist (the query raising propagates to
the outer `except`; an empty result is a not-found failure), then try the
direct enqueue when the level is `RunSpecifiedTests`, returning its result
if successful, else fall through to the Tooling API stage. -/
def resolveAndRun (env : SubmitEnv) (classNames : Option (List String))
    (cs : List String) (testLevel : String) (asyncExecution codeCoverage : Bool) :
    SubmitResult × List SfEffect :=
  match env.classResp with
  | Except.error e =>
    let r : ToolResult :=
      { success := false,
        message := "❌ An exception occurred during comprehensive test execution: " ++ e }
    (SubmitResult.outcome r, [SfEffect.apexClassQuery cs])
  | Except.ok recs =>
    if recs.isEmpty then
      let r : ToolResult :=
        { success := false,
          message := "❌ No test classes found with names: " ++ String.intercalate ", " cs }
      (SubmitResult.outcome r, [SfEffect.apexClassQuery cs])
    else if testLevel == "RunSpecifiedTests" then
      let (r, e2) := enqueueTestsIndividually env.enq cs codeCoverage
      if r.success then (SubmitResult.outcome r, SfEffect.apexClassQuery cs :: e2)
      else (SubmitResult.toolingStage classNames testLevel asyncExecution codeCoverage,
            SfEffect.apexClassQuery cs :: e2)
    else
      (SubmitResult.toolingStage classNames testLevel asyncExecution codeCoverage,
       [SfEffect.apexClassQuery cs])

/-- `run_apex_tests_comprehensive(class_names, test_level, async_execution,
code_coverage, verbose)` (`src/server.py` lines 897-973): connection
check, argument validation, dedup check (refuse when something is
reported running; a `None` check result is ignored), class resolution,
direct enqueue, then the Tooling API stage.  The `verbose` flag is unused
by the source body and omitted here. -/
def runApexTestsComprehensive (env : SubmitEnv) (classNames : Option (List String))
    (testLevel : String) (asyncExecution codeCoverage : Bool) :
    SubmitResult × List SfEffect :=
  if !env.connOk then
    (SubmitResult.outcome { success := false, message := "❌ Salesforce connection failed" }, [])
  else if testLevel == "RunSpecifiedTests" && !listTruthy classNames then
    let r : ToolResult :=
      { success := false,
        message := "❌ Test level \x27RunSpecifiedTests\x27 requires class names to be specified" }
    (SubmitResult.outcome r, [])
  else if listTruthy classNames then
    let cs := classNames.getD []
    match checkTestExecutionStatus env.check cs with
    | (some r, e1) =>
      if r.status == "running" then
        let halt : ToolResult :=
          { success := false, message := alreadyRunningMsg (r.classes.getD []) }
        (SubmitResult.outcome halt, e1)
      else
        let (res, e2) := resolveAndRun env classNames cs testLevel asyncExecution codeCoverage
        (res, e1 ++ e2)
    | (none, e1) =>
      let (res, e2) := resolveAndRun env classNames cs testLevel asyncExecution codeCoverage
      (res, e1 ++ e2)
  else
    (SubmitResult.toolingStage classNames testLevel asyncExecution codeCoverage, [])

/-! ## Stack-trace line extraction (`parse_line_number_from_stack_trace`,
`src/server.py` lines 599-623) -/

/-- Numeric value of a digit run (regex capture `(\d+)` fed to `int`). -/
def digitsToNat (ds : List Char) : Nat :=
  ds.foldl (fun acc c => 10 * acc + (c.toNat - 48)) 0

/-- Match of pattern 1, `re.search(r"line (\d+)", s, re.IGNORECASE)`, at the
head of the character list: the four letters of `line` case-insensitively,
a space, then a maximal non-empty digit run. -/
def matchLineAt : List Char → Option Nat
  | l :: i :: n :: e :: sp :: rest =>
    if l.toLower == 'l' && i.toLower == 'i' && n.toLower == 'n' &&
        e.toLower == 'e' && sp == ' ' then
      let ds := rest.takeWhile Char.isDigit
      if ds.isEmpty then none else some (digitsToNat ds)
    else none
  | _ => none

/-- Match of pattern 2, `r":(\d+):"`, at the head: a colon, a maximal
non-empty digit run, a colon.  (Backtracking inside `\d+` cannot produce
any other match because every proper prefix of the run is followed by a
digit, not a colon.) -/
def matchColonAt : List Char → Option Nat
  | ':' :: rest =>
    let ds := rest.takeWhile Char.isDigit
    if ds.isEmpty then none
    else
      match rest.drop ds.length with
      | ':' :: _ => some (digitsToNat ds)
      | _ => none
  | _ => none

/-- Python `\w` on ASCII input: letters, digits, underscore. -/
def isWordChar (c : Char) : Bool := c.isAlphanum || c == '_'

/-- Match of pattern 3, `r"\.[\w]+:(\d+)"`, at the head: a dot, a maximal
non-empty word-character run, a colon, a maximal non-empty digit run.
(A colon is not a word character, so `\w+` cannot backtrack into another
match.) -/
def matchDotAt : List Char → Option Nat
  | '.' :: rest =>
    let ws := rest.takeWhile isWordChar
    if ws.isEmpty then none
    else
      match rest.drop ws.length with
      | ':' :: rest2 =>
        let ds := rest2.takeWhile Char.isDigit
        if ds.isEmpty then none else some (digitsToNat ds)
      | _ => none
  | _ => none

/-- `re.search` semantics: try the pattern at each position left to right. -/
def scanFor (f : List Char → Option Nat) : List Char → Option Nat
  | [] => none
  | c :: rest =>
    match f (c :: rest) with
    | some n => some n
    | none => scanFor f rest

/-- `parse_line_number_from_stack_trace(stack_trace)` (`src/server.py`
lines 599-623): `None` on a falsy input, else the three regex patterns in
order. -/
def parseLineNumberFromStackTrace (stackTrace : String) : Option Nat :=
  if stackTrace == "" then none
  else
    let cs := stackTrace.data
    match scanFor matchLineAt cs with
    | some n => some n
    | none =>
      match scanFor matchColonAt cs with
      | some n => some n
      | none => scanFor matchDotAt cs

/-! ## Status-and-coverage report (`check_test_status_and_coverage`,
`src/server.py` lines 680-894, the `class_names` branch) -/

/-- One `ApexTestResult` row as consumed by the report builder; fields read
with `.get(..., default)` are `Option`s, with the default applied at the
use site.  `runTime = 0` models both an absent and a zero `RunTime` (both
falsy in the source). -/
structure TestResultRec where
  apexClassName : Option String
  methodName : Option String
  outcome : Option String
  message : Option String
  stackTrace : Option String
  runTime : Nat
deriving Repr, DecidableEq

/-- One-decimal rendering of the percentage `num / den * 100`
(Python `f"{x:.1f}"`).  Rounding is done half-to-even on the exact
rational; Python formats the nearest binary double, which can differ in
the last digit for a few inputs — no claim settled here depends on the
digits themselves. -/
def tenthsRound (num den : Nat) : Nat :=
  let q := num * 10 / den
  let r := num * 10 % den
  if 2 * r > den then q + 1
  else if 2 * r < den then q
  else if q % 2 == 0 then q else q + 1

/-- Formatted percentage `num / den * 100` with one decimal place. -/
def pctFmt (num den : Nat) : String :=
  let t := tenthsRound (num * 100) den
  toString (t / 10) ++ "." ++ toString (t % 10)

/-- First `takeN` stack-trace lines, stripped, dropping empty lines and
lines starting with `System.` or `caused by` (`src/server.py` lines
781-790). -/
def stackRelevantLines (st : String) (takeN : Nat) : List String :=
  (((st.splitOn "\n").take takeN).map String.trim).filter
    (fun l => l != "" && !(l.startsWith "System.") && !(l.startsWith "caused by"))

/-- Python slice truncation `s[:n] + "..."` applied when `len(s) > n`. -/
def truncateWith (s : String) (n : Nat) : String :=
  if s.length > n then s.take n ++ "..." else s

/-- The lines contributed for the `i`-th displayed failure by
`check_test_status_and_coverage` (`src/server.py` lines 743-801):
header with a leading newline, optional line number, optional runtime,
message truncated at 300 characters, up to two relevant stack-trace lines
truncated at 80 characters, and a separator between failures. -/
def failureDetailLines (i : Nat) (failCount : Nat) (r : TestResultRec) : List String :=
  let className := r.apexClassName.getD "Unknown"
  let methodName := r.methodName.getD "Unknown"
  let msg := r.message.getD "No message"
  let st := r.stackTrace.getD ""
  let lineNo := parseLineNumberFromStackTrace st
  ["\n**" ++ toString (i + 1) ++ ". " ++ className ++ "." ++ methodName ++ "**"]
  ++ (match lineNo with
      | some ln => ["   📍 **Line:** " ++ toString ln]
      | none => [])
  ++ (if r.runTime != 0 then ["   ⏱️ **Runtime:** " ++ toString r.runTime ++ "ms"] else [])
  ++ (if msg != "" then
        if msg.length > 300 then
          ["   🚨 **Error:** " ++ msg.take 300 ++ "...",
           "   💡 *Message truncated - check Salesforce for complete details*"]
        else ["   🚨 **Error:** " ++ msg]
      else [])
  ++ (if st != "" then
        let rel := stackRelevantLines st 2
        if rel.isEmpty then []
        else "   📋 **Stack Trace:**" :: rel.map (fun l => "     " ++ truncateWith l 80)
      else [])
  ++ (if i < failCount - 1 && i < 4 then ["   " ++ String.mk (List.replicate 50 '─')]
      else [])

/-- The test-results block of the report (`src/server.py` lines 716-808).
The whole block sits under `if test_results:` — with no test results it
contributes no lines at all (there is no `else` adding a notice). -/
def resultsSectionLines (jobId : Option String) (testResults : List TestResultRec) :
    List String :=
  if testResults.isEmpty then []
  else
    let total := testResults.length
    let passed := (testResults.filter (fun r => r.outcome == some "Pass")).length
    let failed := (testResults.filter (fun r => r.outcome == some "Fail")).length
    let header :=
      if strTruthy jobId then
        "🧪 **Test Execution Results** (Job: " ++ jobId.getD "" ++ "):"
      else "🧪 **Recent Test Execution Results:**"
    let summary :=
      ["   • Total Tests: " ++ toString total,
       "   • ✅ Passed: " ++ toString passed,
       "   • ❌ Failed: " ++ toString failed,
       "   • Success Rate: " ++ pctFmt passed (Nat.max total 1) ++ "%",
       ""]
    let failedDetails := testResults.filter (fun r => r.outcome == some "Fail")
    let failBlock :=
      if failedDetails.isEmpty then []
      else
        ["❌ **Failed Tests (Detailed):**"]
        ++ ((failedDetails.take 5).enum.flatMap
              (fun p => failureDetailLines p.1 failedDetails.length p.2))
        ++ (if failedDetails.length > 5 then
              ["\n   💡 **Note:** Showing first 5 failures. " ++
               toString (failedDetails.length - 5) ++ " more failures occurred."]
            else [])
        ++ [""]
    header :: (summary ++ failBlock)

/-- Accumulator of the coverage loop (`total_covered`, `total_lines`,
`found_coverage` plus the lines emitted so far). -/
structure CovAcc where
  emitted : List String
  totalCovered : Nat
  totalLines : Nat
  found : Bool

/-- The coverage block of the report (`src/server.py` lines 810-863).
Per-unit lines for units with a positive line count (with up to three
contributing test methods when the `"TestMethods"` key is present), an
overall total when anything was shown, the `ℹ️ No coverage data available`
notice when rows exist but all have zero lines, and the
`No data available` notice when there are no rows at all.  The emoji
thresholds compare the exact rational percentage. -/
def coverageSectionLines (coverageData : List AggEntry) : List String :=
  if coverageData.isEmpty then ["📊 **Code Coverage:** No data available"]
  else
    let acc := coverageData.foldl (fun (acc : CovAcc) cov =>
      let covered := cov.covered
      let uncovered := cov.uncovered
      let total := covered + uncovered
      if total > 0 then
        let status :=
          if covered * 100 ≥ 75 * total then "🟢"
          else if covered * 100 ≥ 50 * total then "🟡"
          else "🔴"
        let line := "   " ++ status ++ " **" ++ cov.name ++ "**: " ++
          pctFmt covered total ++ "% (" ++ toString covered ++ "/" ++
          toString total ++ " lines)"
        let methodLines :=
          match cov.testMethods with
          | some ms =>
            (ms.take 3).flatMap (fun m =>
              let mt := m.covered + m.uncovered
              if mt > 0 then ["     • " ++ m.method ++ ": " ++ pctFmt m.covered mt ++ "%"]
              else [])
          | none => []
        ⟨acc.emitted ++ line :: methodLines, acc.totalCovered + covered,
         acc.totalLines + total, true⟩
      else acc) ⟨[], 0, 0, false⟩
    "📊 **Code Coverage:**" ::
      (if acc.found then
        acc.emitted ++
          ["",
           "📊 **Overall Coverage**: " ++
             (if acc.totalLines > 0 then pctFmt acc.totalCovered acc.totalLines else "0.0") ++
             "% (" ++ toString acc.totalCovered ++ "/" ++ toString acc.totalLines ++ " lines)",
           "",
           "💡 **Coverage Legend:**",
           "   🟢 Good (≥75%) | 🟡 Fair (50-74%) | 🔴 Poor (<50%)"]
      else acc.emitted ++ ["   ℹ️ No coverage data available"])

/-- The recommendations block (`src/server.py` lines 865-878), added only
when there are test results and at least one failed. -/
def recommendationLines (testResults : List TestResultRec) : List String :=
  if testResults.isEmpty then []
  else if (testResults.filter (fun r => r.outcome == some "Fail")).length > 0 then
    ["",
     "💡 **Recommendations:**",
     "   • Review failed test details above",
     "   • Check the specific line numbers where failures occurred",
     "   • Fix the underlying code issues causing test failures",
     "   • Re-run tests after making corrections"]
  else []

/-- The two header lines of the report (`src/server.py` lines 711-714). -/
def checkReportHeader (classNames : List String) : List String :=
  ["📈 **Test Results and Coverage for: " ++ String.intercalate ", " classNames ++ "**",
   ""]

/-- The full `response_lines` list of the `class_names` branch of
`check_test_status_and_coverage` (`src/server.py` lines 711-878), built
by appending the four blocks in source order. -/
def checkReportLines (classNames : List String) (jobId : Option String)
    (testResults : List TestResultRec) (coverageData : List AggEntry) : List String :=
  checkReportHeader classNames ++ resultsSectionLines jobId testResults
    ++ coverageSectionLines coverageData ++ recommendationLines testResults

/-- The `status` field of the returned dict (`src/server.py` line 882):
`"complete_with_details"` when there are test results, else
`"coverage_only"`. -/
def checkReportStatus (testResults : List TestResultRec) : String :=
  if testResults.isEmpty then "coverage_only" else "complete_with_details"

/-! ## Derived notions used by the statements -/

/-- Fold of `Nat.max` with an explicit start value: the running maximum the
aggregation maintains. -/
def maxFrom (a : Nat) (l : List Nat) : Nat := l.foldl Nat.max a

/-- Maximum of a list of observed counts. -/
def maxList (l : List Nat) : Nat := l.foldl Nat.max 0

/-- The rows of a detailed result set that observe unit `n`
(as read through the Method-1 defaulting convention). -/
def obsRows (rows : List CovRow) (n : String) : List CovRow :=
  rows.filter (fun r => rowClassName r == n)

/-- The rows of a recency-window result set that observe unit `n`. -/
def obsRecent (rows : List CovRow) (n : String) : List CovRow :=
  rows.filter (fun r => r.apexName == some n)

/-- A status read that is usable but not terminal: the query returned
either no record or a record whose status is not `Completed`, `Failed` or
`Aborted` — the poller sleeps and keeps polling on such a read. -/
def nonTerminalRead : PollRead → Bool
  | PollRead.err => false
  | PollRead.ok [] => true
  | PollRead.ok (s :: _) => !terminalStatuses.contains s

/-! ## Concrete sample inputs used by witnesses and counterexamples -/

/-- Two detailed coverage observations of the same non-test unit. -/
def c1Rows : List CovRow :=
  [⟨some "InvoiceService", some "InvoiceServiceTest", some "testApply", 10, 6⟩,
   ⟨some "InvoiceService", some "InvoiceServiceTest", some "testVoid", 4, 9⟩]

/-- A coverage environment in which the detailed job-scoped source has
usable rows. -/
def c5Env : CoverageEnv := ⟨some c1Rows, some [], some [], some []⟩

/-- A coverage environment in which the detailed source failed and the
job-scoped aggregate source mixes a test class with a non-test class. -/
def c6Env : CoverageEnv :=
  ⟨none, some [⟨some "PaymentsTest", 3, 4⟩, ⟨some "Payments", 5, 2⟩], some [], some []⟩

/-- Status reads that never return a terminal status. -/
def c3Reads : Nat → PollRead := fun _ => PollRead.ok ["Processing"]

/-- Status reads whose very first read raises. -/
def c4Reads : Nat → PollRead :=
  fun k => if k == 0 then PollRead.err else PollRead.ok ["Processing"]

/-- Status reads that are non-terminal twice and then raise. -/
def c4LaterReads : Nat → PollRead :=
  fun k => if k < 2 then PollRead.ok ["Queued"] else PollRead.err

/-- The class id attempted by a queue-item create effect, if any. -/
def effCreateId : SfEffect → Option String
  | SfEffect.createQueueItem i => some i
  | _ => none

/-- Whether a create response reports a created item. -/
def isCreateSuccess : CreateResp → Bool
  | CreateResp.resp true _ => true
  | _ => false

/-- A dedup-check environment reporting two requested classes as queued. -/
def c2CheckEnv : CheckEnv :=
  ⟨true, some [⟨"FooServiceTest", "Queued"⟩, ⟨"BarServiceTest", "Processing"⟩], some []⟩

/-- A submission environment whose dedup check reports the requested
classes as running. -/
def c2Env : SubmitEnv :=
  ⟨true, c2CheckEnv,
   Except.ok [⟨"01pF00000000001", "FooServiceTest"⟩],
   ⟨Except.ok [⟨"01pF00000000001", "FooServiceTest"⟩],
    fun i => if i == "01pF00000000001" then CreateResp.resp true (some "709Q00000000001")
             else CreateResp.raise "no such class"⟩⟩

/-- A dedup-check environment with no matching queue entries but one
recent unrelated non-terminal test-request job. -/
def c9CheckEnv : CheckEnv := ⟨true, some [], some [⟨"707J00000000OTH", "Processing"⟩]⟩

/-- A submission environment blocked only by the unrelated recent job. -/
def c9Env : SubmitEnv :=
  ⟨true, c9CheckEnv,
   Except.ok [⟨"01pF00000000001", "FooServiceTest"⟩],
   ⟨Except.ok [⟨"01pF00000000001", "FooServiceTest"⟩],
    fun i => if i == "01pF00000000001" then CreateResp.resp true (some "709Q00000000001")
             else CreateResp.raise "no such class"⟩⟩

/-- A dedup-check environment whose queue query raises. -/
def c10FailCheck : CheckEnv := ⟨true, none, some []⟩

/-- A dedup-check environment that reports nothing running. -/
def c10OkCheck : CheckEnv := ⟨true, some [], some []⟩

/-- A submission environment whose dedup check raises; resolution and
enqueue succeed. -/
def c10Env : SubmitEnv :=
  ⟨true, c10FailCheck,
   Except.ok [⟨"01pF00000000001", "FooServiceTest"⟩],
   ⟨Except.ok [⟨"01pF00000000001", "FooServiceTest"⟩],
    fun i => if i == "01pF00000000001" then CreateResp.resp true (some "709Q00000000001")
             else CreateResp.raise "no such class"⟩⟩

/-- A submission environment in which only one of two requested classes
exists; nothing is running and the create succeeds. -/
def c7Env : SubmitEnv :=
  ⟨true, c10OkCheck,
   Except.ok [⟨"01pF00000000001", "FooServiceTest"⟩],
   ⟨Except.ok [⟨"01pF00000000001", "FooServiceTest"⟩],
    fun i => if i == "01pF00000000001" then CreateResp.resp true (some "709Q00000000001")
             else CreateResp.raise "no such class"⟩⟩

/-- Occurrence of one character list inside another. -/
def charsInfix : List Char → List Char → Bool
  | p, [] => p.isEmpty
  | p, c :: rest => charsPrefix p (c :: rest) || charsInfix p rest

/-- Python `t in s` on strings: `t` occurs as a substring of `s`. -/
def strContainsStr (s t : String) : Bool := charsInfix t.data s.data

/-! ## Helper lemmas about the dict model -/

lemma maxFrom_cons (a c : Nat) (l : List Nat) :
    maxFrom a (c :: l) = maxFrom (Nat.max a c) l := rfl

lemma maxList_cons (c : Nat) (l : List Nat) : maxList (c :: l) = maxFrom c l := by
  simp [maxList, maxFrom, Nat.zero_max]

lemma findEntry_name {m : List AggEntry} {n : String} {e : AggEntry}
    (h : findEntry m n = some e) : e.name = n := by
  have := List.find?_some h
  simpa [beq_iff_eq] using this

lemma findEntry_cons_pos (a : AggEntry) (l : List AggEntry) (n : String)
    (h : a.name = n) : findEntry (a :: l) n = some a := by
  unfold findEntry
  exact List.find?_cons_of_pos _ (by simp [h])

lemma findEntry_cons_neg (a : AggEntry) (l : List AggEntry) (n : String)
    (h : ¬ a.name = n) : findEntry (a :: l) n = findEntry l n := by
  unfold findEntry
  exact List.find?_cons_of_neg _ (by simp [h])

lemma hasEntry_eq_isSome (m : List AggEntry) (n : String) :
    hasEntry m n = (findEntry m n).isSome := by
  induction m with
  | nil => rfl
  | cons a l ih =>
    by_cases h : a.name = n
    · rw [findEntry_cons_pos a l n h]
      simp [hasEntry, h]
    · rw [findEntry_cons_neg a l n h, ← ih]
      have hb : (a.name == n) = false := by simp [h]
      simp [hasEntry, hb]

lemma updateEntry_cons (a : AggEntry) (l : List AggEntry) (n : String)
    (f : AggEntry → AggEntry) :
    updateEntry (a :: l) n f = (if a.name == n then f a else a) :: updateEntry l n f := rfl

lemma findEntry_updateEntry_self (m : List AggEntry) (n : String)
    (f : AggEntry → AggEntry) (hf : ∀ e, (f e).name = e.name) :
    findEntry (updateEntry m n f) n = (findEntry m n).map f := by
  induction m with
  | nil => rfl
  | cons a l ih =>
    by_cases h : a.name = n
    · have hb : (a.name == n) = true := by simp [h]
      rw [updateEntry_cons, if_pos hb, findEntry_cons_pos _ _ _ (by rw [hf a, h]),
        findEntry_cons_pos a l n h]
      rfl
    · have hb : (a.name == n) = false := by simp [h]
      rw [updateEntry_cons, hb, if_neg (by simp), findEntry_cons_neg a _ n h,
        findEntry_cons_neg a l n h, ih]

lemma findEntry_updateEntry_ne (m : List AggEntry) (n k : String)
    (f : AggEntry → AggEntry) (hf : ∀ e, (f e).name = e.name) (hnk : n ≠ k) :
    findEntry (updateEntry m n f) k = findEntry m k := by
  induction m with
  | nil => rfl
  | cons a l ih =>
    by_cases h : a.name = n
    · have hb : (a.name == n) = true := by simp [h]
      rw [updateEntry_cons, if_pos hb,
        findEntry_cons_neg _ _ k (by rw [hf a, h]; exact hnk),
        findEntry_cons_neg a l k (by rw [h]; exact hnk), ih]
    · have hb : (a.name == n) = false := by simp [h]
      rw [updateEntry_cons, hb, if_neg (by simp)]
      by_cases h2 : a.name = k
      · rw [findEntry_cons_pos _ _ k h2, findEntry_cons_pos a l k h2]
      · rw [findEntry_cons_neg _ _ k h2, findEntry_cons_neg a l k h2, ih]

lemma findEntry_append (m m2 : List AggEntry) (n : String) :
    findEntry (m ++ m2) n = ((findEntry m n).or (findEntry m2 n)) :=
  List.find?_append

/-! ## Behaviour of the two merge loop bodies at a fixed key -/

lemma maxMerge_name (r : CovRow) : ∀ e, (maxMerge r e).name = e.name :=
  fun _ => rfl

lemma pushMethod_name (r : CovRow) : ∀ e, (pushMethod r e).name = e.name :=
  fun _ => rfl

lemma findEntry_mergeJobRow_ne (m : List AggEntry) (r : CovRow) (n : String)
    (h : rowClassName r ≠ n) :
    findEntry (mergeJobRow m r) n = findEntry m n := by
  unfold mergeJobRow
  cases hT : isTestClassName (rowClassName r) with
  | true => simp [hT]
  | false =>
    simp only [hT, Bool.false_eq_true, if_false]
    rw [findEntry_updateEntry_ne _ _ _ (pushMethod r) (pushMethod_name r) h]
    cases hE : hasEntry m (rowClassName r) with
    | true =>
      simp only [hE, if_true]
      exact findEntry_updateEntry_ne _ _ _ (maxMerge r) (maxMerge_name r) h
    | false =>
      simp only [hE, Bool.false_eq_true, if_false]
      rw [findEntry_append]
      rw [findEntry_cons_neg _ _ _ h]
      simp [findEntry]

lemma findEntry_mergeJobRow_update (m : List AggEntry) (r : CovRow)
    (hT : isTestClassName (rowClassName r) = false) (e : AggEntry)
    (he : findEntry m (rowClassName r) = some e) :
    findEntry (mergeJobRow m r) (rowClassName r) =
      some ⟨rowClassName r, Nat.max e.covered r.numLinesCovered,
            Nat.max e.uncovered r.numLinesUncovered,
            some ((e.testMethods.getD []) ++ [mEntry r])⟩ := by
  have hE : hasEntry m (rowClassName r) = true := by
    rw [hasEntry_eq_isSome, he]; rfl
  have hname : e.name = rowClassName r := findEntry_name he
  unfold mergeJobRow
  simp only [hT, Bool.false_eq_true, if_false, hE, if_true]
  rw [findEntry_updateEntry_self _ _ (pushMethod r) (pushMethod_name r),
    findEntry_updateEntry_self _ _ (maxMerge r) (maxMerge_name r), he]
  simp [maxMerge, pushMethod, hname]

lemma findEntry_mergeJobRow_insert (m : List AggEntry) (r : CovRow)
    (hT : isTestClassName (rowClassName r) = false)
    (he : findEntry m (rowClassName r) = none) :
    findEntry (mergeJobRow m r) (rowClassName r) =
      some ⟨rowClassName r, r.numLinesCovered, r.numLinesUncovered,
            some [mEntry r]⟩ := by
  have hE : hasEntry m (rowClassName r) = false := by
    rw [hasEntry_eq_isSome, he]; rfl
  unfold mergeJobRow
  simp only [hT, Bool.false_eq_true, if_false, hE, if_false]
  rw [findEntry_updateEntry_self _ _ (pushMethod r) (pushMethod_name r),
    findEntry_append, he, findEntry_cons_pos _ _ _ rfl]
  simp [pushMethod]

lemma findEntry_mergeRecentRow_ne (m : List AggEntry) (r : CovRow) (n : String)
    (h : r.apexName ≠ some n) :
    findEntry (mergeRecentRow m r) n = findEntry m n := by
  unfold mergeRecentRow
  cases ha : r.apexName with
  | none => rfl
  | some nm =>
    have hnm : nm ≠ n := fun hc => h (by rw [ha, hc])
    cases h0 : (nm == "") with
    | true => simp [h0]
    | false =>
      cases hT : isTestClassName nm with
      | true => simp [h0, hT]
      | false =>
        simp only [h0, hT, Bool.false_eq_true, if_false]
        cases hE : hasEntry m nm with
        | true =>
          simp only [hE, if_true]
          exact findEntry_updateEntry_ne _ _ _ (maxMerge r) (maxMerge_name r) hnm
        | false =>
          simp only [hE, Bool.false_eq_true, if_false]
          rw [findEntry_append, findEntry_cons_neg _ _ _ hnm]
          simp [findEntry]

lemma findEntry_mergeRecentRow_update (m : List AggEntry) (r : CovRow)
    (nm : String) (ha : r.apexName = some nm) (h0 : nm ≠ "")
    (hT : isTestClassName nm = false) (e : AggEntry)
    (he : findEntry m nm = some e) :
    findEntry (mergeRecentRow m r) nm =
      some ⟨nm, Nat.max e.covered r.numLinesCovered,
            Nat.max e.uncovered r.numLinesUncovered, e.testMethods⟩ := by
  have hE : hasEntry m nm = true := by rw [hasEntry_eq_isSome, he]; rfl
  have hname : e.name = nm := findEntry_name he
  have hb : (nm == "") = false := by simp [h0]
  unfold mergeRecentRow
  simp only [ha, hb, hT, Bool.false_eq_true, if_false, hE, if_true]
  rw [findEntry_updateEntry_self _ _ (maxMerge r) (maxMerge_name r), he]
  simp [maxMerge, hname]

lemma findEntry_mergeRecentRow_insert (m : List AggEntry) (r : CovRow)
    (nm : String) (ha : r.apexName = some nm) (h0 : nm ≠ "")
    (hT : isTestClassName nm = false)
    (he : findEntry m nm = none) :
    findEntry (mergeRecentRow m r) nm =
      some ⟨nm, r.numLinesCovered, r.numLinesUncovered, none⟩ := by
  have hE : hasEntry m nm = false := by rw [hasEntry_eq_isSome, he]; rfl
  have hb : (nm == "") = false := by simp [h0]
  unfold mergeRecentRow
  simp only [ha, hb, hT, Bool.false_eq_true, if_false, hE, if_false]
  rw [findEntry_append, he, findEntry_cons_pos _ _ _ rfl]
  rfl

/-! ## The running maximum carried by the two aggregation folds -/

lemma foldl_mergeJobRow_found (n : String) (hT : isTestClassName n = false) :
    ∀ (rows : List CovRow) (m : List AggEntry) (e : AggEntry),
      findEntry m n = some e →
      ∃ tm, findEntry (rows.foldl mergeJobRow m) n =
        some ⟨n, maxFrom e.covered ((obsRows rows n).map CovRow.numLinesCovered),
                 maxFrom e.uncovered ((obsRows rows n).map CovRow.numLinesUncovered),
                 tm⟩ := by
  intro rows
  induction rows with
  | nil =>
    intro m e he
    refine ⟨e.testMethods, ?_⟩
    have hname := findEntry_name he
    simp only [List.foldl_nil, obsRows, List.filter_nil, List.map_nil]
    rw [he, ← hname]
    rfl
  | cons r rs ih =>
    intro m e he
    by_cases hr : rowClassName r = n
    · have hobs : obsRows (r :: rs) n = r :: obsRows rs n := by
        simp [obsRows, List.filter_cons, hr]
      have hstep := findEntry_mergeJobRow_update m r (by rw [hr]; exact hT) e
        (by rw [hr]; exact he)
      rw [hr] at hstep
      obtain ⟨tm, hfold⟩ := ih (mergeJobRow m r) _ hstep
      refine ⟨tm, ?_⟩
      simp only [List.foldl_cons, hobs, List.map_cons, maxFrom_cons]
      exact hfold
    · have hobs : obsRows (r :: rs) n = obsRows rs n := by
        simp [obsRows, List.filter_cons, hr]
      have hstep := findEntry_mergeJobRow_ne m r n hr
      obtain ⟨tm, hfold⟩ := ih (mergeJobRow m r) e (by rw [hstep]; exact he)
      refine ⟨tm, ?_⟩
      simp only [List.foldl_cons, hobs]
      exact hfold

lemma foldl_mergeJobRow_none (n : String) (hT : isTestClassName n = false) :
    ∀ (rows : List CovRow) (m : List AggEntry), findEntry m n = none →
      (obsRows rows n = [] → findEntry (rows.foldl mergeJobRow m) n = none) ∧
      (∀ r0 rest, obsRows rows n = r0 :: rest →
        ∃ tm, findEntry (rows.foldl mergeJobRow m) n =
          some ⟨n, maxFrom r0.numLinesCovered (rest.map CovRow.numLinesCovered),
                   maxFrom r0.numLinesUncovered (rest.map CovRow.numLinesUncovered),
                   tm⟩) := by
  intro rows
  induction rows with
  | nil =>
    intro m he
    constructor
    · intro _; simpa using he
    · intro r0 rest h; simp [obsRows] at h
  | cons r rs ih =>
    intro m he
    by_cases hr : rowClassName r = n
    · have hobs : obsRows (r :: rs) n = r :: obsRows rs n := by
        simp [obsRows, List.filter_cons, hr]
      have hstep := findEntry_mergeJobRow_insert m r (by rw [hr]; exact hT)
        (by rw [hr]; exact he)
      rw [hr] at hstep
      constructor
      · intro h0
        rw [hobs] at h0
        exact absurd h0 (List.cons_ne_nil _ _)
      · intro r0 rest hcons
        rw [hobs] at hcons
        injection hcons with h1 h2
        subst h1
        subst h2
        obtain ⟨tm, hfold⟩ := foldl_mergeJobRow_found n hT rs (mergeJobRow m r) _ hstep
        refine ⟨tm, ?_⟩
        simp only [List.foldl_cons]
        exact hfold
    · have hobs : obsRows (r :: rs) n = obsRows rs n := by
        simp [obsRows, List.filter_cons, hr]
      have hstep := findEntry_mergeJobRow_ne m r n hr
      have ih' := ih (mergeJobRow m r) (by rw [hstep]; exact he)
      constructor
      · intro h0
        rw [hobs] at h0
        simp only [List.foldl_cons]
        exact ih'.1 h0
      · intro r0 rest hcons
        rw [hobs] at hcons
        obtain ⟨tm, hfold⟩ := ih'.2 r0 rest hcons
        refine ⟨tm, ?_⟩
        simp only [List.foldl_cons]
        exact hfold

lemma foldl_mergeRecentRow_found (n : String) (h0 : n ≠ "")
    (hT : isTestClassName n = false) :
    ∀ (rows : List CovRow) (m : List AggEntry) (e : AggEntry),
      findEntry m n = some e →
      ∃ tm, findEntry (rows.foldl mergeRecentRow m) n =
        some ⟨n, maxFrom e.covered ((obsRecent rows n).map CovRow.numLinesCovered),
                 maxFrom e.uncovered ((obsRecent rows n).map CovRow.numLinesUncovered),
                 tm⟩ := by
  intro rows
  induction rows with
  | nil =>
    intro m e he
    refine ⟨e.testMethods, ?_⟩
    have hname := findEntry_name he
    simp only [List.foldl_nil, obsRecent, List.filter_nil, List.map_nil]
    rw [he, ← hname]
    rfl
  | cons r rs ih =>
    intro m e he
    by_cases hr : r.apexName = some n
    · have hobs : obsRecent (r :: rs) n = r :: obsRecent rs n := by
        simp [obsRecent, List.filter_cons, hr]
      have hstep := findEntry_mergeRecentRow_update m r n hr h0 hT e he
      obtain ⟨tm, hfold⟩ := ih (mergeRecentRow m r) _ hstep
      refine ⟨tm, ?_⟩
      simp only [List.foldl_cons, hobs, List.map_cons, maxFrom_cons]
      exact hfold
    · have hobs : obsRecent (r :: rs) n = obsRecent rs n := by
        simp [obsRecent, List.filter_cons, hr]
      have hstep := findEntry_mergeRecentRow_ne m r n hr
      obtain ⟨tm, hfold⟩ := ih (mergeRecentRow m r) e (by rw [hstep]; exact he)
      refine ⟨tm, ?_⟩
      simp only [List.foldl_cons, hobs]
      exact hfold

lemma foldl_mergeRecentRow_none (n : String) (h0 : n ≠ "")
    (hT : isTestClassName n = false) :
    ∀ (rows : List CovRow) (m : List AggEntry), findEntry m n = none →
      (obsRecent rows n = [] → findEntry (rows.foldl mergeRecentRow m) n = none) ∧
      (∀ r0 rest, obsRecent rows n = r0 :: rest →
        ∃ tm, findEntry (rows.foldl mergeRecentRow m) n =
          some ⟨n, maxFrom r0.numLinesCovered (rest.map CovRow.numLinesCovered),
                   maxFrom r0.numLinesUncovered (rest.map CovRow.numLinesUncovered),
                   tm⟩) := by
  intro rows
  induction rows with
  | nil =>
    intro m he
    constructor
    · intro _; simpa using he
    · intro r0 rest h; simp [obsRecent] at h
  | cons r rs ih =>
    intro m he
    by_cases hr : r.apexName = some n
    · have hobs : obsRecent (r :: rs) n = r :: obsRecent rs n := by
        simp [obsRecent, List.filter_cons, hr]
      have hstep := findEntry_mergeRecentRow_insert m r n hr h0 hT he
      constructor
      · intro hnil
        rw [hobs] at hnil
        exact absurd hnil (List.cons_ne_nil _ _)
      · intro r0 rest hcons
        rw [hobs] at hcons
        injection hcons with h1 h2
        subst h1
        subst h2
        obtain ⟨tm, hfold⟩ := foldl_mergeRecentRow_found n h0 hT rs (mergeRecentRow m r) _ hstep
        refine ⟨tm, ?_⟩
        simp only [List.foldl_cons]
        exact hfold
    · have hobs : obsRecent (r :: rs) n = obsRecent rs n := by
        simp [obsRecent, List.filter_cons, hr]
      have hstep := findEntry_mergeRecentRow_ne m r n hr
      have ih' := ih (mergeRecentRow m r) (by rw [hstep]; exact he)
      constructor
      · intro hnil
        rw [hobs] at hnil
        simp only [List.foldl_cons]
        exact ih'.1 hnil
      · intro r0 rest hcons
        rw [hobs] at hcons
        obtain ⟨tm, hfold⟩ := ih'.2 r0 rest hcons
        refine ⟨tm, ?_⟩
        simp only [List.foldl_cons]
        exact hfold

/-! ## No measured unit is a test class -/

lemma mem_updateEntry_names {m : List AggEntry} {n : String} {f : AggEntry → AggEntry}
    (hf : ∀ e, (f e).name = e.name) :
    ∀ e ∈ updateEntry m n f, ∃ e2 ∈ m, e.name = e2.name := by
  intro e he
  obtain ⟨e2, he2, heq⟩ := List.mem_map.mp he
  refine ⟨e2, he2, ?_⟩
  rw [← heq]
  by_cases h : (e2.name == n) = true
  · rw [if_pos h]
    exact hf e2
  · rw [if_neg h]

lemma mergeJobRow_no_test {m : List AggEntry} (r : CovRow)
    (hm : ∀ e ∈ m, isTestClassName e.name = false) :
    ∀ e ∈ mergeJobRow m r, isTestClassName e.name = false := by
  intro e he
  by_cases hT : isTestClassName (rowClassName r) = true
  · unfold mergeJobRow at he
    rw [if_pos hT] at he
    exact hm e he
  · have hT' : isTestClassName (rowClassName r) = false := by simpa using hT
    unfold mergeJobRow at he
    rw [if_neg hT] at he
    obtain ⟨e2, he2, hname⟩ := mem_updateEntry_names (pushMethod_name r) e he
    rw [hname]
    by_cases hE : hasEntry m (rowClassName r) = true
    · rw [if_pos hE] at he2
      obtain ⟨e3, he3, hname2⟩ := mem_updateEntry_names (maxMerge_name r) e2 he2
      rw [hname2]
      exact hm e3 he3
    · rw [if_neg hE] at he2
      rcases List.mem_append.mp he2 with h | h
      · exact hm e2 h
      · have : e2 = ⟨rowClassName r, r.numLinesCovered, r.numLinesUncovered, some []⟩ := by
          simpa using h
        rw [this]
        exact hT'

lemma mergeRecentRow_no_test {m : List AggEntry} (r : CovRow)
    (hm : ∀ e ∈ m, isTestClassName e.name = false) :
    ∀ e ∈ mergeRecentRow m r, isTestClassName e.name = false := by
  intro e he
  unfold mergeRecentRow at he
  cases ha : r.apexName with
  | none =>
    rw [ha] at he
    exact hm e he
  | some nm =>
    rw [ha] at he
    dsimp only at he
    by_cases h0 : (nm == "") = true
    · rw [if_pos h0] at he
      exact hm e he
    · rw [if_neg h0] at he
      by_cases hT : isTestClassName nm = true
      · rw [if_pos hT] at he
        exact hm e he
      · have hT' : isTestClassName nm = false := by simpa using hT
        rw [if_neg hT] at he
        by_cases hE : hasEntry m nm = true
        · rw [if_pos hE] at he
          obtain ⟨e2, he2, hname⟩ := mem_updateEntry_names (maxMerge_name r) e he
          rw [hname]
          exact hm e2 he2
        · rw [if_neg hE] at he
          rcases List.mem_append.mp he with h | h
          · exact hm e h
          · have : e = ⟨nm, r.numLinesCovered, r.numLinesUncovered, none⟩ := by
              simpa using h
            rw [this]
            exact hT'

lemma foldl_mergeJobRow_no_test :
    ∀ (rows : List CovRow) (m : List AggEntry),
      (∀ e ∈ m, isTestClassName e.name = false) →
      ∀ e ∈ rows.foldl mergeJobRow m, isTestClassName e.name = false := by
  intro rows
  induction rows with
  | nil => intro m hm; simpa using hm
  | cons r rs ih =>
    intro m hm
    simp only [List.foldl_cons]
    exact ih _ (mergeJobRow_no_test r hm)

lemma foldl_mergeRecentRow_no_test :
    ∀ (rows : List CovRow) (m : List AggEntry),
      (∀ e ∈ m, isTestClassName e.name = false) →
      ∀ e ∈ rows.foldl mergeRecentRow m, isTestClassName e.name = false := by
  intro rows
  induction rows with
  | nil => intro m hm; simpa using hm
  | cons r rs ih =>
    intro m hm
    simp only [List.foldl_cons]
    exact ih _ (mergeRecentRow_no_test r hm)

lemma aggregateJobCoverage_no_test (rows : List CovRow) :
    ∀ e ∈ aggregateJobCoverage rows, isTestClassName e.name = false :=
  foldl_mergeJobRow_no_test rows [] (by intro e he; cases he)

lemma aggregateRecentCoverage_no_test (rows : List CovRow) :
    ∀ e ∈ aggregateRecentCoverage rows, isTestClassName e.name = false :=
  foldl_mergeRecentRow_no_test rows [] (by intro e he; cases he)

lemma filteredAgg_no_test (rows : List AggRow) :
    ∀ e ∈ (filterAggRows rows).map aggRowToEntry, isTestClassName e.name = false := by
  intro e he
  obtain ⟨r, hr, heq⟩ := List.mem_map.mp he
  have hkeep := (List.mem_filter.mp hr).2
  rw [← heq]
  simpa [aggRowToEntry] using hkeep

lemma method1_no_test {j : Option String} {c : Option (List String)}
    {env : CoverageEnv} {out : List AggEntry} {log : List CovSource}
    (h : method1Result j c env = (some out, log)) :
    ∀ e ∈ out, isTestClassName e.name = false := by
  unfold method1Result at h
  split at h
  · cases hd : env.detailedJobRows with
    | none => rw [hd] at h; cases h
    | some rows =>
      rw [hd] at h
      dsimp at h
      split at h
      · cases h
      · split at h
        · cases h
        · have := (Prod.mk.injEq _ _ _ _ ▸ h).1
          injection this with hout
          rw [← hout]
          exact aggregateJobCoverage_no_test rows
  · cases h

lemma method2_no_test {j : Option String} {env : CoverageEnv}
    {out : List AggEntry} {log : List CovSource}
    (h : method2Result j env = (some out, log)) :
    ∀ e ∈ out, isTestClassName e.name = false := by
  unfold method2Result at h
  split at h
  · cases hd : env.aggregateJobRows with
    | none => rw [hd] at h; cases h
    | some rows =>
      rw [hd] at h
      dsimp at h
      split at h
      · cases h
      · split at h
        · cases h
        · have := (Prod.mk.injEq _ _ _ _ ▸ h).1
          injection this with hout
          rw [← hout]
          exact filteredAgg_no_test rows
  · cases h

lemma method3_no_test {env : CoverageEnv}
    {out : List AggEntry} {log : List CovSource}
    (h : method3Result env = (some out, log)) :
    ∀ e ∈ out, isTestClassName e.name = false := by
  unfold method3Result at h
  cases hd : env.recentRows with
  | none => rw [hd] at h; cases h
  | some rows =>
    rw [hd] at h
    dsimp at h
    split at h
    · cases h
    · split at h
      · cases h
      · have := (Prod.mk.injEq _ _ _ _ ▸ h).1
        injection this with hout
        rw [← hout]
        exact aggregateRecentCoverage_no_test rows

lemma method4_no_test {env : CoverageEnv}
    {out : List AggEntry} {log : List CovSource}
    (h : method4Result env = (some out, log)) :
    ∀ e ∈ out, isTestClassName e.name = false := by
  unfold method4Result at h
  cases hd : env.orgWideRows with
  | none => rw [hd] at h; cases h
  | some rows =>
    rw [hd] at h
    dsimp at h
    split at h
    · cases h
    · split at h
      · cases h
      · have := (Prod.mk.injEq _ _ _ _ ▸ h).1
        injection this with hout
        rw [← hout]
        exact filteredAgg_no_test rows

lemma aggregateJobCoverage_ne_nil {rows : List CovRow} {r : CovRow}
    (hr : r ∈ rows) (hT : isTestClassName (rowClassName r) = false) :
    aggregateJobCoverage rows ≠ [] := by
  intro hnil
  have hmem : r ∈ obsRows rows (rowClassName r) :=
    List.mem_filter.mpr ⟨hr, by simp⟩
  cases hobs : obsRows rows (rowClassName r) with
  | nil => rw [hobs] at hmem; cases hmem
  | cons r0 rest =>
    obtain ⟨tm, hfold⟩ :=
      (foldl_mergeJobRow_none (rowClassName r) hT rows [] rfl).2 r0 rest hobs
    have hagg : findEntry (aggregateJobCoverage rows) (rowClassName r) =
        some ⟨rowClassName r, maxFrom r0.numLinesCovered (rest.map CovRow.numLinesCovered),
              maxFrom r0.numLinesUncovered (rest.map CovRow.numLinesUncovered), tm⟩ := hfold
    rw [hnil] at hagg
    simp [findEntry] at hagg

/-! ## Claim theorems: coverage aggregation -/

/-- C1.  In both per-method coverage aggregations (the job-scoped detailed
source, Method 1, and the recency-window source, Method 3), whenever a
non-test unit has at least one observation, the unit's entry in the
resulting report carries exactly the maximum of all observed covered
counts and the maximum of all observed uncovered counts — the elementwise
maximum, which never decreases a previously observed value. -/
theorem coverage_merge_elementwise_max (n : String)
    (hT : isTestClassName n = false) (h0 : n ≠ "") :
    (∀ rows : List CovRow, obsRows rows n ≠ [] →
      ∃ tm, findEntry (aggregateJobCoverage rows) n =
        some ⟨n, maxList ((obsRows rows n).map CovRow.numLinesCovered),
                 maxList ((obsRows rows n).map CovRow.numLinesUncovered), tm⟩) ∧
    (∀ rows : List CovRow, obsRecent rows n ≠ [] →
      ∃ tm, findEntry (aggregateRecentCoverage rows) n =
        some ⟨n, maxList ((obsRecent rows n).map CovRow.numLinesCovered),
                 maxList ((obsRecent rows n).map CovRow.numLinesUncovered), tm⟩) := by
  constructor
  · intro rows hne
    cases hobs : obsRows rows n with
    | nil => exact absurd hobs hne
    | cons r0 rest =>
      obtain ⟨tm, hfold⟩ := (foldl_mergeJobRow_none n hT rows [] rfl).2 r0 rest hobs
      refine ⟨tm, ?_⟩
      simp only [List.map_cons, maxList_cons]
      exact hfold
  · intro rows hne
    cases hobs : obsRecent rows n with
    | nil => exact absurd hobs hne
    | cons r0 rest =>
      obtain ⟨tm, hfold⟩ := (foldl_mergeRecentRow_none n h0 hT rows [] rfl).2 r0 rest hobs
      refine ⟨tm, ?_⟩
      simp only [List.map_cons, maxList_cons]
      exact hfold

/-- Witness for C1 at two concrete observations `(10,6)` and `(4,9)` of the
same unit: the merged entry is `(10, 9)`, the elementwise maximum. -/
theorem coverage_merge_elementwise_max_witness :
    isTestClassName "InvoiceService" = false ∧
    obsRows c1Rows "InvoiceService" ≠ [] ∧
    (∃ tm, findEntry (aggregateJobCoverage c1Rows) "InvoiceService" =
      some ⟨"InvoiceService",
        maxList ((obsRows c1Rows "InvoiceService").map CovRow.numLinesCovered),
        maxList ((obsRows c1Rows "InvoiceService").map CovRow.numLinesUncovered),
        tm⟩) ∧
    maxList ((obsRows c1Rows "InvoiceService").map CovRow.numLinesCovered) = 10 ∧
    maxList ((obsRows c1Rows "InvoiceService").map CovRow.numLinesUncovered) = 9 := by
  refine ⟨by decide, by decide, ?_, by decide, by decide⟩
  exact (coverage_merge_elementwise_max "InvoiceService" (by decide) (by decide)).1
    c1Rows (by decide)

/-- C5.  When the per-method, job-scoped source is consulted (truthy class
names and job id) and returns at least one usable (non-test) row, the
aggregator returns that source's merged result, and neither the
recency-window source nor the org-wide aggregate source is queried. -/
theorem fallback_chain_first_nonempty_wins
    (env : CoverageEnv) (j : String) (cs : List String) (rows : List CovRow) (r : CovRow)
    (hjne : j ≠ "") (hcs : cs ≠ [])
    (hrows : env.detailedJobRows = some rows) (hr : r ∈ rows)
    (hT : isTestClassName (rowClassName r) = false) :
    getComprehensiveCoverageData (some j) (some cs) env =
      (aggregateJobCoverage rows, [CovSource.detailedJob]) ∧
    CovSource.recent ∉ (getComprehensiveCoverageData (some j) (some cs) env).2 ∧
    CovSource.orgWide ∉ (getComprehensiveCoverageData (some j) (some cs) env).2 := by
  have htr : (listTruthy (some cs) && strTruthy (some j)) = true := by
    cases cs with
    | nil => exact absurd rfl hcs
    | cons a l => simp [listTruthy, strTruthy, hjne]
  have hne := aggregateJobCoverage_ne_nil hr hT
  have hrne : rows ≠ [] := by
    intro h
    rw [h] at hr
    cases hr
  have hre : rows.isEmpty = false := by
    cases rows with
    | nil => exact absurd rfl hrne
    | cons a l => rfl
  have hae : (aggregateJobCoverage rows).isEmpty = false := by
    cases hagg : aggregateJobCoverage rows with
    | nil => exact absurd hagg hne
    | cons a l => rfl
  have h1 : method1Result (some j) (some cs) env =
      (some (aggregateJobCoverage rows), [CovSource.detailedJob]) := by
    unfold method1Result
    rw [if_pos htr, hrows]
    dsimp only
    simp only [hre, Bool.false_eq_true, if_false, hae]
  have hmain : getComprehensiveCoverageData (some j) (some cs) env =
      (aggregateJobCoverage rows, [CovSource.detailedJob]) := by
    unfold getComprehensiveCoverageData
    rw [h1]
  refine ⟨hmain, ?_, ?_⟩ <;> rw [hmain] <;> simp

/-- Witness for C5 at a concrete environment whose detailed job-scoped
source holds two usable rows. -/
theorem fallback_chain_first_nonempty_wins_witness :
    c5Env.detailedJobRows = some c1Rows ∧
    getComprehensiveCoverageData (some "707J000000AbcDE") (some ["InvoiceServiceTest"]) c5Env =
      (aggregateJobCoverage c1Rows, [CovSource.detailedJob]) := by
  refine ⟨rfl, ?_⟩
  exact (fallback_chain_first_nonempty_wins c5Env "707J000000AbcDE" ["InvoiceServiceTest"]
    c1Rows ⟨some "InvoiceService", some "InvoiceServiceTest", some "testApply", 10, 6⟩
    (by decide) (by decide) rfl (by decide) (by decide)).1

/-- C6.  Through every one of the four fallback sources, no unit whose name
matches the test-unit naming convention appears as a measured unit in the
coverage report. -/
theorem coverage_report_excludes_test_units (jobId : Option String)
    (classNames : Option (List String)) (env : CoverageEnv) :
    ∀ e ∈ (getComprehensiveCoverageData jobId classNames env).1,
      isTestClassName e.name = false := by
  unfold getComprehensiveCoverageData
  cases h1 : method1Result jobId classNames env with
  | mk o1 l1 =>
    cases o1 with
    | some out =>
      dsimp only
      exact method1_no_test h1
    | none =>
      cases h2 : method2Result jobId env with
      | mk o2 l2 =>
        cases o2 with
        | some out =>
          dsimp only
          exact method2_no_test h2
        | none =>
          cases h3 : method3Result env with
          | mk o3 l3 =>
            cases o3 with
            | some out =>
              dsimp only
              exact method3_no_test h3
            | none =>
              cases h4 : method4Result env with
              | mk o4 l4 =>
                cases o4 with
                | some out =>
                  dsimp only
                  exact method4_no_test h4
                | none =>
                  dsimp only
                  intro e he
                  cases he

/-- Witness for C6: in a report produced from a mixed aggregate source the
surviving entry is the non-test unit. -/
theorem coverage_report_excludes_test_units_witness :
    (⟨"Payments", 5, 2, none⟩ : AggEntry) ∈
      (getComprehensiveCoverageData (some "707J000000AbcDE") (some ["PaymentsTest"]) c6Env).1 ∧
    isTestClassName (AggEntry.name ⟨"Payments", 5, 2, none⟩) = false := by
  refine ⟨by decide, ?_⟩
  exact coverage_report_excludes_test_units (some "707J000000AbcDE") (some ["PaymentsTest"])
    c6Env ⟨"Payments", 5, 2, none⟩ (by decide)

/-! ## Claim theorems: job poller -/

lemma monitorLoop_all_nonterminal (reads : Nat → PollRead) :
    ∀ (n k : Nat), (∀ j, j < n → nonTerminalRead (reads (k + j)) = true) →
      monitorLoop reads n k = (MonitorResult.timedOut, k + n) := by
  intro n
  induction n with
  | zero =>
    intro k _
    simp [monitorLoop]
  | succ n ih =>
    intro k h
    have h0 := h 0 (Nat.succ_pos n)
    rw [Nat.add_zero] at h0
    have hshift : ∀ j, j < n → nonTerminalRead (reads (k + 1 + j)) = true := by
      intro j hj
      have := h (j + 1) (by omega)
      rwa [show k + (j + 1) = k + 1 + j by omega] at this
    cases hr : reads k with
    | err =>
      rw [hr] at h0
      simp [nonTerminalRead] at h0
    | ok ss =>
      cases ss with
      | nil =>
        show monitorLoop reads (n + 1) k = _
        simp only [monitorLoop, hr]
        rw [ih (k + 1) hshift]
        refine congrArg _ ?_
        omega
      | cons st rest =>
        have hterm : terminalStatuses.contains st = false := by
          rw [hr] at h0
          simpa [nonTerminalRead] using h0
        show monitorLoop reads (n + 1) k = _
        simp only [monitorLoop, hr, hterm, Bool.false_eq_true, if_false]
        rw [ih (k + 1) hshift]
        refine congrArg _ ?_
        omega

/-- C3.  If no status read during the whole budget observes a terminal
status, the poller performs exactly `maxPolls` status reads and returns
the timeout outcome, which is non-fatal: `success = True`, method
`Async_Timeout`, carrying the job id and a check-manually instruction. -/
theorem jobPoller_timeout_exact_budget (reads : Nat → PollRead) (jobId : String)
    (h : ∀ j, j < maxPolls → nonTerminalRead (reads j) = true) :
    monitorTestExecution jobId reads =
      (MonitorOutcome.timeout (asyncTimeoutReturn jobId), maxPolls) ∧
    (asyncTimeoutReturn jobId).success = true ∧
    (asyncTimeoutReturn jobId).executionMethod = some "Async_Timeout" ∧
    (asyncTimeoutReturn jobId).jobId = some jobId := by
  have hloop := monitorLoop_all_nonterminal reads maxPolls 0
    (fun j hj => by simpa using h j hj)
  refine ⟨?_, rfl, rfl, rfl⟩
  unfold monitorTestExecution
  rw [hloop]
  simp

/-- Witness for C3: sixty `Processing` reads, then the non-fatal timeout. -/
theorem jobPoller_timeout_exact_budget_witness :
    (∀ j, j < maxPolls → nonTerminalRead (c3Reads j) = true) ∧
    monitorTestExecution "707J000000AbcDE" c3Reads =
      (MonitorOutcome.timeout (asyncTimeoutReturn "707J000000AbcDE"), maxPolls) := by
  refine ⟨by decide, ?_⟩
  exact (jobPoller_timeout_exact_budget c3Reads "707J000000AbcDE" (by decide)).1

set_option maxRecDepth 4096 in
/-- Counterexample to C4 as stated: with a read stream whose first status
read raises (and would be non-terminal afterwards), the loop performs a
single status read and stops — it does not continue with the remaining
59 attempts of the budget, contradicting "does not abort the polling loop
early; polling continues with the remaining attempts". -/
theorem poll_failure_counterexample :
    monitorTestExecution "707J000000AbcDE" c4Reads =
      (MonitorOutcome.timeout (asyncTimeoutReturn "707J000000AbcDE"), 1) ∧
    nonTerminalRead (c4Reads 1) = true ∧
    (1 : Nat) < maxPolls := by
  refine ⟨?_, by decide, by decide⟩
  decide

lemma monitorLoop_err_at (reads : Nat → PollRead) :
    ∀ (m n k : Nat), m < n →
      (∀ j, j < m → nonTerminalRead (reads (k + j)) = true) →
      reads (k + m) = PollRead.err →
      monitorLoop reads n k = (MonitorResult.timedOut, k + m + 1) := by
  intro m
  induction m with
  | zero =>
    intro n k hmn _ herr
    cases n with
    | zero => omega
    | succ n =>
      rw [Nat.add_zero] at herr
      simp [monitorLoop, herr]
  | succ m ih =>
    intro n k hmn hpre herr
    cases n with
    | zero => omega
    | succ n =>
      have h0 := hpre 0 (Nat.succ_pos m)
      rw [Nat.add_zero] at h0
      have hshift : ∀ j, j < m → nonTerminalRead (reads (k + 1 + j)) = true := by
        intro j hj
        have := hpre (j + 1) (by omega)
        rwa [show k + (j + 1) = k + 1 + j by omega] at this
      have herr' : reads (k + 1 + m) = PollRead.err := by
        rwa [show k + 1 + m = k + (m + 1) by omega]
      cases hr : reads k with
      | err =>
        rw [hr] at h0
        simp [nonTerminalRead] at h0
      | ok ss =>
        cases ss with
        | nil =>
          show monitorLoop reads (n + 1) k = _
          simp only [monitorLoop, hr]
          rw [ih n (k + 1) (by omega) hshift herr']
          refine congrArg _ ?_
          omega
        | cons st rest =>
          have hterm : terminalStatuses.contains st = false := by
            rw [hr] at h0
            simpa [nonTerminalRead] using h0
          show monitorLoop reads (n + 1) k = _
          simp only [monitorLoop, hr, hterm, Bool.false_eq_true, if_false]
          rw [ih n (k + 1) (by omega) hshift herr']
          refine congrArg _ ?_
          omega

/-- C4 as amended: a failed status read is caught, but the `except` branch
executes `break`, so it aborts the polling loop immediately — the read
that raised is the last one performed and the remaining attempts are not
used.  The function then returns the same non-fatal timeout outcome
(`success = True` with the job id), so the failure never aborts the
overall call. -/
theorem poll_failure_aborts_loop_nonfatal (reads : Nat → PollRead) (jobId : String)
    (m : Nat) (hm : m < maxPolls)
    (hpre : ∀ j, j < m → nonTerminalRead (reads j) = true)
    (herr : reads m = PollRead.err) :
    monitorTestExecution jobId reads =
      (MonitorOutcome.timeout (asyncTimeoutReturn jobId), m + 1) ∧
    (asyncTimeoutReturn jobId).success = true := by
  have hloop := monitorLoop_err_at reads m maxPolls 0 hm
    (fun j hj => by simpa using hpre j hj) (by simpa using herr)
  refine ⟨?_, rfl⟩
  unfold monitorTestExecution
  rw [hloop]
  simp

/-- Witness for the amended C4: two non-terminal reads, then a read that
raises; the poller stops after the third read. -/
theorem poll_failure_aborts_loop_nonfatal_witness :
    (∀ j, j < 2 → nonTerminalRead (c4LaterReads j) = true) ∧
    c4LaterReads 2 = PollRead.err ∧
    monitorTestExecution "707J000000AbcDE" c4LaterReads =
      (MonitorOutcome.timeout (asyncTimeoutReturn "707J000000AbcDE"), 3) := by
  refine ⟨by decide, by decide, ?_⟩
  exact (poll_failure_aborts_loop_nonfatal c4LaterReads "707J000000AbcDE" 2
    (by decide) (by decide) (by decide)).1

/-! ## Claim theorems: submission flow -/

lemma check_running_queue (env : CheckEnv) (cs : List String) (qs : List QueueRec)
    (hconn : env.connOk = true) (hq : env.queueResp = some qs) (hne : qs ≠ []) :
    checkTestExecutionStatus env cs =
      (some ⟨"running", some (qs.map (fun q => q.className)), some qs, none⟩,
       [SfEffect.queueQuery cs]) := by
  have hqe : qs.isEmpty = false := by
    cases qs with
    | nil => exact absurd rfl hne
    | cons a l => rfl
  unfold checkTestExecutionStatus
  rw [if_pos hconn, hq]
  dsimp only
  simp only [hqe, Bool.false_eq_true, if_false]

lemma check_running_jobs (env : CheckEnv) (cs : List String) (js : List JobRec)
    (hconn : env.connOk = true) (hq : env.queueResp = some [])
    (hj : env.jobResp = some js) (hne : js ≠ []) :
    checkTestExecutionStatus env cs =
      (some ⟨"running", none, none, some js⟩,
       [SfEffect.queueQuery cs, SfEffect.jobQuery]) := by
  have hje : js.isEmpty = false := by
    cases js with
    | nil => exact absurd rfl hne
    | cons a l => rfl
  unfold checkTestExecutionStatus
  rw [if_pos hconn, hq, hj]
  dsimp only
  simp only [List.isEmpty_nil, if_true, hje, Bool.false_eq_true, if_false]

/-- C2.  When the external system reports queue entries for the requested
class names with status Queued/Processing, the submission halts with the
already-running outcome listing those running classes, and its only
external call was the queue-status query: no queue item is created and no
managed (Tooling API) submission is attempted. -/
theorem dedup_refuses_already_running
    (env : SubmitEnv) (cs : List String) (testLevel : String)
    (asyncExecution codeCoverage : Bool) (qs : List QueueRec)
    (hconn : env.connOk = true) (hchk : env.check.connOk = true)
    (hq : env.check.queueResp = some qs) (hqne : qs ≠ [])
    (hmatch : ∀ q ∈ qs, q.className ∈ cs ∧ (q.status = "Queued" ∨ q.status = "Processing"))
    (hcs : cs ≠ []) :
    runApexTestsComprehensive env (some cs) testLevel asyncExecution codeCoverage =
      (SubmitResult.outcome
        { success := false,
          message := alreadyRunningMsg (qs.map (fun q => q.className)) },
       [SfEffect.queueQuery cs]) := by
  have hlt : listTruthy (some cs) = true := by
    cases cs with
    | nil => exact absurd rfl hcs
    | cons a l => rfl
  have hck := check_running_queue env.check cs qs hchk hq hqne
  unfold runApexTestsComprehensive
  rw [hconn, hlt]
  simp only [Bool.not_true, Bool.and_false, Bool.false_eq_true, if_false, if_true,
    Option.getD_some, hck]
  simp

/-- Witness for C2 at a concrete environment reporting both requested
classes as queued or processing. -/
theorem dedup_refuses_already_running_witness :
    c2Env.check.queueResp =
      some [⟨"FooServiceTest", "Queued"⟩, ⟨"BarServiceTest", "Processing"⟩] ∧
    runApexTestsComprehensive c2Env (some ["FooServiceTest", "BarServiceTest"])
        "RunSpecifiedTests" false true =
      (SubmitResult.outcome
        { success := false,
          message := alreadyRunningMsg ["FooServiceTest", "BarServiceTest"] },
       [SfEffect.queueQuery ["FooServiceTest", "BarServiceTest"]]) := by
  refine ⟨rfl, ?_⟩
  have h := dedup_refuses_already_running c2Env ["FooServiceTest", "BarServiceTest"]
    "RunSpecifiedTests" false true
    [⟨"FooServiceTest", "Queued"⟩, ⟨"BarServiceTest", "Processing"⟩]
    rfl rfl rfl (by decide) (by decide) (by decide)
  simpa using h

/-- C9.  The recent-jobs leg of the dedup check carries no class-name
condition: with no queue entries for the requested classes but any recent
non-terminal test-request job, the check reports "running" (with the jobs,
no classes) and the submission is refused with an empty running-class
list — blocked by an unrelated concurrent run. -/
theorem unrelated_job_blocks_submission
    (env : SubmitEnv) (cs : List String) (testLevel : String) (a cc : Bool)
    (js : List JobRec)
    (hconn : env.connOk = true) (hchk : env.check.connOk = true)
    (hq : env.check.queueResp = some [])
    (hj : env.check.jobResp = some js) (hjne : js ≠ [])
    (hstat : ∀ jb ∈ js, jb.status = "Queued" ∨ jb.status = "Processing" ∨
      jb.status = "Preparing")
    (hcs : cs ≠ []) :
    (checkTestExecutionStatus env.check cs).1 = some ⟨"running", none, none, some js⟩ ∧
    runApexTestsComprehensive env (some cs) testLevel a cc =
      (SubmitResult.outcome { success := false, message := alreadyRunningMsg [] },
       [SfEffect.queueQuery cs, SfEffect.jobQuery]) := by
  have hlt : listTruthy (some cs) = true := by
    cases cs with
    | nil => exact absurd rfl hcs
    | cons a l => rfl
  have hck := check_running_jobs env.check cs js hchk hq hj hjne
  constructor
  · rw [hck]
  · unfold runApexTestsComprehensive
    rw [hconn, hlt]
    simp only [Bool.not_true, Bool.and_false, Bool.false_eq_true, if_false, if_true,
      Option.getD_some, hck]
    simp

/-- Witness for C9 at a concrete environment: the requested class has no
queue entry, yet an unrelated recent processing job blocks it. -/
theorem unrelated_job_blocks_submission_witness :
    c9Env.check.queueResp = some [] ∧
    runApexTestsComprehensive c9Env (some ["FooServiceTest"]) "RunSpecifiedTests" false true =
      (SubmitResult.outcome { success := false, message := alreadyRunningMsg [] },
       [SfEffect.queueQuery ["FooServiceTest"], SfEffect.jobQuery]) := by
  refine ⟨rfl, ?_⟩
  exact (unrelated_job_blocks_submission c9Env ["FooServiceTest"] "RunSpecifiedTests"
    false true [⟨"707J00000000OTH", "Processing"⟩]
    rfl rfl rfl rfl (by decide) (by decide) (by decide)).2

/-- C10.  When the dedup status check itself fails (returns `None`), the
submission proceeds exactly as if the check had reported nothing running:
the final result is identical to that of the same environment with a
successful not-running check, and the effects after the check are the
same in both runs.  The failed guard never makes the submission fail. -/
theorem failed_dedup_check_is_skipped
    (env : SubmitEnv) (c2 : CheckEnv) (cs : List String) (testLevel : String)
    (a cc : Bool)
    (hconn : env.connOk = true) (hcs : cs ≠ [])
    (hfail : (checkTestExecutionStatus env.check cs).1 = none)
    (hok : (checkTestExecutionStatus c2 cs).1 = some ⟨"not_running", none, none, none⟩) :
    (runApexTestsComprehensive env (some cs) testLevel a cc).1 =
      (runApexTestsComprehensive { env with check := c2 } (some cs) testLevel a cc).1 ∧
    (∃ t, (runApexTestsComprehensive env (some cs) testLevel a cc).2 =
        (checkTestExecutionStatus env.check cs).2 ++ t ∧
      (runApexTestsComprehensive { env with check := c2 } (some cs) testLevel a cc).2 =
        (checkTestExecutionStatus c2 cs).2 ++ t) := by
  have hlt : listTruthy (some cs) = true := by
    cases cs with
    | nil => exact absurd rfl hcs
    | cons a l => rfl
  have hconn2 : ({ env with check := c2 } : SubmitEnv).connOk = true := hconn
  have hchk2 : ({ env with check := c2 } : SubmitEnv).check = c2 := rfl
  cases hck1 : checkTestExecutionStatus env.check cs with
  | mk o1 e1 =>
    rw [hck1] at hfail
    dsimp only at hfail
    subst hfail
    cases hck2 : checkTestExecutionStatus c2 cs with
    | mk o2 e2 =>
      rw [hck2] at hok
      dsimp only at hok
      subst hok
      cases hrr : resolveAndRun env (some cs) cs testLevel a cc with
      | mk res e3 =>
        have hrr2 : resolveAndRun { env with check := c2 } (some cs) cs testLevel a cc =
            (res, e3) := hrr
        have run1 : runApexTestsComprehensive env (some cs) testLevel a cc =
            (res, e1 ++ e3) := by
          unfold runApexTestsComprehensive
          rw [hconn, hlt]
          simp only [Bool.not_true, Bool.and_false, Bool.false_eq_true, if_false, if_true,
            Option.getD_some, hck1, hrr]
        have run2 : runApexTestsComprehensive { env with check := c2 } (some cs) testLevel a cc =
            (res, e2 ++ e3) := by
          unfold runApexTestsComprehensive
          dsimp only
          rw [hconn, hlt]
          simp only [Bool.not_true, Bool.and_false, Bool.false_eq_true, if_false, if_true,
            Option.getD_some, hck2]
          have hrr3 :
              resolveAndRun ⟨true, c2, env.classResp, env.enq⟩ (some cs) cs testLevel a cc =
                (res, e3) := hrr
          simp [hrr3]
        rw [run1, run2]
        exact ⟨rfl, e3, rfl, rfl⟩

/-- Witness for C10: a queue query that raises yields a `None` check and
the same successful direct-enqueue outcome as a clean not-running check. -/
theorem failed_dedup_check_is_skipped_witness :
    (checkTestExecutionStatus c10Env.check ["FooServiceTest"]).1 = none ∧
    (checkTestExecutionStatus c10OkCheck ["FooServiceTest"]).1 =
      some ⟨"not_running", none, none, none⟩ ∧
    (runApexTestsComprehensive c10Env (some ["FooServiceTest"])
        "RunSpecifiedTests" false true).1 =
      (runApexTestsComprehensive { c10Env with check := c10OkCheck } (some ["FooServiceTest"])
        "RunSpecifiedTests" false true).1 := by
  refine ⟨by decide, by decide, ?_⟩
  exact (failed_dedup_check_is_skipped c10Env c10OkCheck ["FooServiceTest"]
    "RunSpecifiedTests" false true rfl (by decide) (by decide) (by decide)).1

/-! ## Claim theorems: partial resolution (C7) -/

lemma check_fst_const (env : CheckEnv) (cs cs' : List String) :
    (checkTestExecutionStatus env cs).1 = (checkTestExecutionStatus env cs').1 := by
  unfold checkTestExecutionStatus
  by_cases h : env.connOk = true
  · rw [if_pos h, if_pos h]
    cases env.queueResp with
    | none => rfl
    | some qs =>
      dsimp only
      by_cases hq : qs.isEmpty = true
      · rw [if_pos hq, if_pos hq]
        cases env.jobResp with
        | none => rfl
        | some js =>
          dsimp only
          by_cases hj : js.isEmpty = true
          · rw [if_pos hj, if_pos hj]
          · rw [if_neg hj, if_neg hj]
      · rw [if_neg hq, if_neg hq]
  · rw [if_neg h, if_neg h]

lemma check_effects_no_create (env : CheckEnv) (cs : List String) :
    (checkTestExecutionStatus env cs).2.filterMap effCreateId = [] := by
  unfold checkTestExecutionStatus
  by_cases h : env.connOk = true
  · rw [if_pos h]
    cases env.queueResp with
    | none => rfl
    | some qs =>
      dsimp only
      by_cases hq : qs.isEmpty = true
      · rw [if_pos hq]
        cases env.jobResp with
        | none => rfl
        | some js =>
          dsimp only
          by_cases hj : js.isEmpty = true
          · rw [if_pos hj]
            rfl
          · rw [if_neg hj]
            rfl
      · rw [if_neg hq]
        rfl
  · rw [if_neg h]
    rfl

lemma filterMap_createIds (recs : List ApexClassRec) :
    (recs.map (fun r => SfEffect.createQueueItem r.id)).filterMap effCreateId =
      recs.map ApexClassRec.id := by
  induction recs with
  | nil => rfl
  | cons r rs ih => simp [List.filterMap_cons, effCreateId, ih]

lemma enqueue_effects (env : EnqueueEnv) (cs : List String) (cc : Bool)
    (recs : List ApexClassRec) (her : env.classResp = Except.ok recs)
    (hrne : recs ≠ []) :
    (enqueueTestsIndividually env cs cc).2 =
      SfEffect.apexClassQuery cs :: recs.map (fun r => SfEffect.createQueueItem r.id) := by
  have hre : recs.isEmpty = false := by
    cases recs with
    | nil => exact absurd rfl hrne
    | cons a l => rfl
  unfold enqueueTestsIndividually
  rw [her]
  dsimp only
  simp only [hre, Bool.false_eq_true, if_false]
  split <;> rfl

lemma enqueue_fst_const (env : EnqueueEnv) (cs cs' : List String) (cc : Bool)
    (recs : List ApexClassRec) (her : env.classResp = Except.ok recs)
    (hrne : recs ≠ []) :
    (enqueueTestsIndividually env cs cc).1 = (enqueueTestsIndividually env cs' cc).1 := by
  have hre : recs.isEmpty = false := by
    cases recs with
    | nil => exact absurd rfl hrne
    | cons a l => rfl
  unfold enqueueTestsIndividually
  rw [her]
  dsimp only
  simp only [hre, Bool.false_eq_true, if_false]
  split <;> rfl

lemma foldl_enqStep_mono (env : EnqueueEnv) :
    ∀ (recs : List ApexClassRec) (acc : List EnqueuedItem),
      acc ≠ [] → recs.foldl (enqStep env) acc ≠ [] := by
  intro recs
  induction recs with
  | nil => intro acc h; simpa using h
  | cons r rs ih =>
    intro acc h
    simp only [List.foldl_cons]
    apply ih
    unfold enqStep
    cases env.createResp r.id with
    | raise m => exact h
    | resp ok qid =>
      cases ok with
      | false => simpa using h
      | true => simp

lemma foldl_enqStep_ne_nil (env : EnqueueEnv) :
    ∀ (recs : List ApexClassRec) (acc : List EnqueuedItem),
      (∃ rec ∈ recs, isCreateSuccess (env.createResp rec.id) = true) →
      recs.foldl (enqStep env) acc ≠ [] := by
  intro recs
  induction recs with
  | nil =>
    rintro acc ⟨rec, hmem, _⟩
    cases hmem
  | cons r rs ih =>
    rintro acc ⟨rec, hmem, hsucc⟩
    simp only [List.foldl_cons]
    rcases List.mem_cons.mp hmem with h | h
    · subst h
      apply foldl_enqStep_mono
      unfold enqStep
      unfold isCreateSuccess at hsucc
      cases hcr : env.createResp rec.id with
      | raise m =>
        rw [hcr] at hsucc
        cases hsucc
      | resp ok qid =>
        rw [hcr] at hsucc
        cases ok with
        | false => cases hsucc
        | true => simp
    · exact ih _ ⟨rec, h, hsucc⟩

lemma enqueue_success_fst (env : EnqueueEnv) (cs : List String) (cc : Bool)
    (recs : List ApexClassRec) (her : env.classResp = Except.ok recs)
    (hrne : recs ≠ [])
    (hsucc : ∃ rec ∈ recs, isCreateSuccess (env.createResp rec.id) = true) :
    (enqueueTestsIndividually env cs cc).1.success = true := by
  have hre : recs.isEmpty = false := by
    cases recs with
    | nil => exact absurd rfl hrne
    | cons a l => rfl
  have hq : (recs.foldl (enqStep env) []).isEmpty = false := by
    have := foldl_enqStep_ne_nil env recs [] hsucc
    cases hfe : recs.foldl (enqStep env) [] with
    | nil => exact absurd hfe this
    | cons a l => rfl
  unfold enqueueTestsIndividually
  rw [her]
  dsimp only
  simp only [hre, Bool.false_eq_true, if_false, hq]

/-- C7 as amended: when only a subset of the requested class names
resolves, the submission proceeds with the resolved subset — the queue-item
creates attempted are exactly the resolved class ids — and, when at least
one create succeeds, it returns the direct-enqueue success outcome.  That
outcome is identical to the one obtained by requesting only the resolved
names: the names that were not found are only logged, never reported in
the outcome. -/
theorem partial_resolution_uses_resolved_subset
    (env : SubmitEnv) (cs : List String) (a cc : Bool) (recs : List ApexClassRec)
    (hconn : env.connOk = true)
    (hchk : (checkTestExecutionStatus env.check cs).1 = some ⟨"not_running", none, none, none⟩)
    (hcs : cs ≠ [])
    (hcr : env.classResp = Except.ok recs) (hrne : recs ≠ [])
    (her : env.enq.classResp = Except.ok recs)
    (hsub : ∀ rec ∈ recs, rec.name ∈ cs)
    (hmiss : ∃ x ∈ cs, x ∉ recs.map ApexClassRec.name)
    (hsucc : ∃ rec ∈ recs, isCreateSuccess (env.enq.createResp rec.id) = true) :
    ((runApexTestsComprehensive env (some cs) "RunSpecifiedTests" a cc).2.filterMap
        effCreateId = recs.map ApexClassRec.id) ∧
    (∃ r : ToolResult,
      (runApexTestsComprehensive env (some cs) "RunSpecifiedTests" a cc).1 =
        SubmitResult.outcome r ∧ r.success = true) ∧
    (runApexTestsComprehensive env (some cs) "RunSpecifiedTests" a cc).1 =
      (runApexTestsComprehensive env (some (recs.map ApexClassRec.name))
        "RunSpecifiedTests" a cc).1 := by
  have hre : recs.isEmpty = false := by
    cases recs with
    | nil => exact absurd rfl hrne
    | cons a l => rfl
  have hlt : listTruthy (some cs) = true := by
    cases cs with
    | nil => exact absurd rfl hcs
    | cons x l => rfl
  have hlt' : listTruthy (some (recs.map ApexClassRec.name)) = true := by
    cases recs with
    | nil => exact absurd rfl hrne
    | cons x l => rfl
  -- direct-enqueue outcome for the requested list
  have hsfst := enqueue_success_fst env.enq cs cc recs her hrne hsucc
  have heff := enqueue_effects env.enq cs cc recs her hrne
  -- the resolution step for the requested list
  have hres : resolveAndRun env (some cs) cs "RunSpecifiedTests" a cc =
      (SubmitResult.outcome (enqueueTestsIndividually env.enq cs cc).1,
       SfEffect.apexClassQuery cs :: (enqueueTestsIndividually env.enq cs cc).2) := by
    unfold resolveAndRun
    rw [hcr]
    dsimp only
    simp only [hre, Bool.false_eq_true, if_false, beq_self_eq_true, if_true]
    cases henq : enqueueTestsIndividually env.enq cs cc with
    | mk r e2 =>
      rw [henq] at hsfst
      dsimp only at hsfst
      simp only [hsfst, if_true]
  have hres' : resolveAndRun env (some (recs.map ApexClassRec.name))
      (recs.map ApexClassRec.name) "RunSpecifiedTests" a cc =
      (SubmitResult.outcome
        (enqueueTestsIndividually env.enq (recs.map ApexClassRec.name) cc).1,
       SfEffect.apexClassQuery (recs.map ApexClassRec.name) ::
        (enqueueTestsIndividually env.enq (recs.map ApexClassRec.name) cc).2) := by
    have hsfst' := enqueue_success_fst env.enq (recs.map ApexClassRec.name) cc recs her
      hrne hsucc
    unfold resolveAndRun
    rw [hcr]
    dsimp only
    simp only [hre, Bool.false_eq_true, if_false, beq_self_eq_true, if_true]
    cases henq : enqueueTestsIndividually env.enq (recs.map ApexClassRec.name) cc with
    | mk r e2 =>
      rw [henq] at hsfst'
      dsimp only at hsfst'
      simp only [hsfst', if_true]
  -- the full run for the requested list
  cases hck1 : checkTestExecutionStatus env.check cs with
  | mk o1 e1 =>
    rw [hck1] at hchk
    dsimp only at hchk
    subst hchk
    have run1 : runApexTestsComprehensive env (some cs) "RunSpecifiedTests" a cc =
        (SubmitResult.outcome (enqueueTestsIndividually env.enq cs cc).1,
         e1 ++ (SfEffect.apexClassQuery cs :: (enqueueTestsIndividually env.enq cs cc).2)) := by
      unfold runApexTestsComprehensive
      rw [hconn, hlt]
      simp only [Bool.not_true, Bool.and_false, Bool.false_eq_true, if_false, if_true,
        Option.getD_some, hck1, hres]
      simp
    have hchk' : (checkTestExecutionStatus env.check (recs.map ApexClassRec.name)).1 =
        some ⟨"not_running", none, none, none⟩ := by
      rw [← check_fst_const env.check cs (recs.map ApexClassRec.name), hck1]
    cases hck2 : checkTestExecutionStatus env.check (recs.map ApexClassRec.name) with
    | mk o2 e2 =>
      rw [hck2] at hchk'
      dsimp only at hchk'
      subst hchk'
      have run2 : runApexTestsComprehensive env (some (recs.map ApexClassRec.name))
          "RunSpecifiedTests" a cc =
          (SubmitResult.outcome
            (enqueueTestsIndividually env.enq (recs.map ApexClassRec.name) cc).1,
           e2 ++ (SfEffect.apexClassQuery (recs.map ApexClassRec.name) ::
            (enqueueTestsIndividually env.enq (recs.map ApexClassRec.name) cc).2)) := by
        unfold runApexTestsComprehensive
        rw [hconn, hlt']
        simp only [Bool.not_true, Bool.and_false, Bool.false_eq_true, if_false, if_true,
          Option.getD_some, hck2, hres']
        simp
      refine ⟨?_, ?_, ?_⟩
      · rw [run1]
        have he1 : e1.filterMap effCreateId = [] := by
          have := check_effects_no_create env.check cs
          rw [hck1] at this
          exact this
        dsimp only
        rw [List.filterMap_append, he1, heff]
        simp only [List.filterMap_cons, effCreateId]
        rw [filterMap_createIds]
        rfl
      · rw [run1]
        exact ⟨(enqueueTestsIndividually env.enq cs cc).1, rfl, hsfst⟩
      · rw [run1, run2]
        dsimp only
        congr 1
        exact enqueue_fst_const env.enq cs (recs.map ApexClassRec.name) cc recs her hrne

set_option maxRecDepth 8192 in
/-- Witness for the amended C7: of two requested names only one resolves;
exactly that class id is attempted and the outcome equals the
resolved-only submission. -/
theorem partial_resolution_uses_resolved_subset_witness :
    ((runApexTestsComprehensive c7Env (some ["FooServiceTest", "MissingServiceTest"])
        "RunSpecifiedTests" false true).2.filterMap effCreateId = ["01pF00000000001"]) ∧
    (runApexTestsComprehensive c7Env (some ["FooServiceTest", "MissingServiceTest"])
        "RunSpecifiedTests" false true).1 =
      (runApexTestsComprehensive c7Env (some ["FooServiceTest"])
        "RunSpecifiedTests" false true).1 := by
  have h := partial_resolution_uses_resolved_subset c7Env
    ["FooServiceTest", "MissingServiceTest"] false true
    [⟨"01pF00000000001", "FooServiceTest"⟩]
    rfl (by decide) (by decide) rfl (by decide) rfl (by decide)
    ⟨"MissingServiceTest", by decide, by decide⟩
    ⟨⟨"01pF00000000001", "FooServiceTest"⟩, by decide, by decide⟩
  exact ⟨h.1, h.2.2⟩

set_option maxRecDepth 8192 in
/-- Counterexample to C7 as stated: at a concrete partial resolution the
submission succeeds with the resolved subset, but its outcome is
indistinguishable from that of submitting only the resolved names, and the
outcome message mentions the enqueued class yet never the name that was
not found — so the outcome does not report which requested names were not
found. -/
theorem partial_resolution_counterexample :
    (runApexTestsComprehensive c7Env (some ["FooServiceTest", "MissingServiceTest"])
        "RunSpecifiedTests" false true).1 =
      (runApexTestsComprehensive c7Env (some ["FooServiceTest"])
        "RunSpecifiedTests" false true).1 ∧
    (∃ r : ToolResult,
      (runApexTestsComprehensive c7Env (some ["FooServiceTest", "MissingServiceTest"])
          "RunSpecifiedTests" false true).1 = SubmitResult.outcome r ∧
      r.success = true ∧
      strContainsStr r.message "MissingServiceTest" = false ∧
      strContainsStr r.message "FooServiceTest" = true) := by
  refine ⟨by decide, ?_⟩
  refine ⟨{ success := true, executionMethod := some "ApexTestQueueItem",
            enqueuedClasses := some 1,
            queueItems := some [⟨"FooServiceTest", "01pF00000000001", some "709Q00000000001"⟩],
            message := enqueueSuccessMsg
              [⟨"FooServiceTest", "01pF00000000001", some "709Q00000000001"⟩] },
         by decide, rfl, by decide, by decide⟩

/-! ## Claim theorems: report sections (C8) -/

/-- Counterexample to C8 as stated: with no test results and no coverage
data, the coverage section degrades to an explicit notice, but the
test-results section contributes no lines at all — the whole report is
just the header plus the coverage notice, with no notice that test
results are unavailable. -/
theorem report_sections_counterexample :
    resultsSectionLines none [] = [] ∧
    coverageSectionLines [] = ["📊 **Code Coverage:** No data available"] ∧
    checkReportLines ["FooService"] none [] [] =
      ["📈 **Test Results and Coverage for: FooService**", "",
       "📊 **Code Coverage:** No data available"] := by
  refine ⟨rfl, rfl, rfl⟩

/-- C8 as amended: the coverage section degrades to an explicit
"No data available" notice when it has no data, but the test-results
section is silently omitted (contributes no lines) when there are no test
results; its absence is signalled only through the `status` field
`coverage_only`, and the report then consists of the header and the
coverage section alone. -/
theorem report_sections_amended (cs : List String) (jobId : Option String)
    (covData : List AggEntry) :
    resultsSectionLines jobId [] = [] ∧
    coverageSectionLines [] = ["📊 **Code Coverage:** No data available"] ∧
    checkReportStatus [] = "coverage_only" ∧
    checkReportLines cs jobId [] covData =
      checkReportHeader cs ++ coverageSectionLines covData := by
  refine ⟨rfl, rfl, rfl, ?_⟩
  unfold checkReportLines recommendationLines resultsSectionLines
  simp

end SfServer
